import Mathlib

/-!
# Form-intake service: validators, masking, two-step verification, creation

A shallow embedding of `src/validators.js`, `src/formatters.js`,
`src/analyticsController.js` (masking helpers and `sanitizeSensitiveData`),
`src/FormSubmission.js` (schema, pre-save hook, instance and static methods),
`src/submissionController.js` (`createSubmission` and the read handlers),
`src/adminController.js` (the handlers that return submissions) and
`src/submissions.js` (the routes over the raw collection).

Conventions.
* A JavaScript string is a `String`; every operation used by the program
  (`replace(/\D/g, '')`, `substring`, `slice`, `trim`, template literals)
  is defined on the character list `String.data`.
* A value that may be `undefined` is an `Option`; `none` is `undefined`.
* `new Date()` / `Date.now()` is a parameter `agora : Nat` (Unix
  milliseconds); `Math.random()` is a parameter `m : Nat`, standing for the
  double `m / 2^53` (the engines draw 53 random bits), and the product
  `Math.random() * 9000` is rounded as a double.

Scope.
* Positions and lengths count characters where JavaScript counts UTF-16 code
  units; the two agree on every string without a character outside the Basic
  Multilingual Plane, in particular on every string of digits, separators
  and letters.
* A number held by a field of the analytics payload (`Campo.numero`) is a
  natural number below `10^21`; from there on `toString()` writes an exponent,
  which `Campo.paraTexto` does not.
* The `timestamp` of a request body is a time value (`Option Nat`): a body
  whose `timestamp` cannot be cast to a `Date` is outside the embedding, and
  `validar` has no clause for that cast.
-/

namespace NubankSupport

/-! ## String primitives -/

/-- The regular expression class `\d`: an ASCII decimal digit. -/
def ehDigito (c : Char) : Bool := c.isDigit

/-- The call `s.replace(/\D/g, '')`: delete every character that is not a digit. -/
def somenteDigitos (s : String) : String := ⟨s.data.filter ehDigito⟩

/-- The call `s.substring(a, b)` for `a ≤ b`: characters `a`, ..., `b - 1`
(both ends clamped to the length). -/
def substring (s : String) (a b : Nat) : String := ⟨(s.data.take b).drop a⟩

/-- The call `s.substring(a)`: characters from index `a` to the end. -/
def substringFrom (s : String) (a : Nat) : String := ⟨s.data.drop a⟩

/-- The call `s.slice(-4)`: the last four characters, or all of `s` when it
has fewer than four. -/
def sliceUltimos4 (s : String) : String := ⟨s.data.drop (s.data.length - 4)⟩

/-- The call `parseInt(t)` on a one-character string cut out of a digit
string: the value of that digit. (The callers only pass such strings; on an
empty string JavaScript gives `NaN`, which no caller can reach, and the
model gives 0.) -/
def parseIntDigito (t : String) : Nat :=
  match t.data with
  | c :: _ => c.toNat - 48
  | [] => 0

/-- JavaScript truthiness of a possibly undefined string: `undefined` and
`''` are falsy. -/
def truthy (v : Option String) : Bool :=
  match v with
  | none => false
  | some s => s != ""

/-- The white space and line terminators removed by `String.prototype.trim`. -/
def ehEspaco (c : Char) : Bool :=
  let n := c.toNat
  n == 9 || n == 10 || n == 11 || n == 12 || n == 13 || n == 32 || n == 160 ||
  n == 5760 || (8192 ≤ n && n ≤ 8202) || n == 8232 || n == 8233 || n == 8239 ||
  n == 8287 || n == 12288 || n == 65279

/-- The call `s.trim()`. -/
def trim (s : String) : String :=
  ⟨((s.data.dropWhile ehEspaco).reverse.dropWhile ehEspaco).reverse⟩

/-! ## `validators.js` -/

/-- The test `/^(\d)\1{10}$/.test(s)`: eleven copies of one digit. -/
def todosIguais (s : String) : Bool :=
  match s.data with
  | [] => false
  | c :: cs => ehDigito c && cs.length == 10 && cs.all (fun x => x == c)

/-- The value of `resto` after `resto = (soma * 10) % 11` and the coercion of
10 and 11 to 0. -/
def restoDe (soma : Nat) : Nat :=
  let resto := (soma * 10) % 11
  if resto = 10 ∨ resto = 11 then 0 else resto

/-- The loop `for (i = 1; i <= n; i++) soma += parseInt(s.substring(i-1, i)) * (peso - i)`. -/
def somaPonderada (s : String) (n peso : Nat) : Nat :=
  (List.range' 1 n).foldl
    (fun soma i => soma + parseIntDigito (substring s (i - 1) i) * (peso - i)) 0

/-- The function `validarCPF` of `validators.js` (lines 6-52); the static
`validarCPF` of `FormSubmission.js` and `validarCPFAlgoritmo` of
`analyticsController.js` have the same body. -/
def validarCPF (cpf : String) : Bool :=
  let cpfLimpo := somenteDigitos cpf
  if cpfLimpo.data.length ≠ 11 then false
  else if todosIguais cpfLimpo then false
  else if restoDe (somaPonderada cpfLimpo 9 11) ≠ parseIntDigito (substring cpfLimpo 9 10) then false
  else if restoDe (somaPonderada cpfLimpo 10 12) ≠ parseIntDigito (substring cpfLimpo 10 11) then false
  else true

/-- One iteration of the Luhn loop of `validarCartao`: the state is
`(soma, dobrar)` and `c` is the character at the current index. -/
def passoLuhn (st : Nat × Bool) (c : Char) : Nat × Bool :=
  let digito := c.toNat - 48
  let digito := if st.2 then (if digito * 2 > 9 then digito * 2 - 9 else digito * 2) else digito
  (st.1 + digito, !st.2)

/-- The function `validarCartao` of `validators.js` (lines 55-83): the loop
runs over the digit string from its last index down to 0. -/
def validarCartao (numero : String) : Bool :=
  let numeroLimpo := somenteDigitos numero
  if numeroLimpo.data.length < 13 ∨ numeroLimpo.data.length > 19 then false
  else (numeroLimpo.data.reverse.foldl passoLuhn (0, false)).1 % 10 == 0

/-- The two check-digit comparisons of `validarCPF` (lines 18-51), on the
digit-stripped string `cpfLimpo`. -/
def digitosVerificadoresOk (cpfLimpo : String) : Bool :=
  if restoDe (somaPonderada cpfLimpo 9 11) ≠ parseIntDigito (substring cpfLimpo 9 10) then false
  else if restoDe (somaPonderada cpfLimpo 10 12) ≠ parseIntDigito (substring cpfLimpo 10 11) then false
  else true

/-- The function `formatarCPF` of `validators.js` (lines 86-102). (The
functions of the same name in `formatters.js` and `FormSubmission.js` are
different: they format only an 11-digit input.) -/
def formatarCPF (cpf : String) : String :=
  let cpfLimpo := somenteDigitos cpf
  if cpfLimpo.data.length ≤ 3 then cpfLimpo
  else if cpfLimpo.data.length ≤ 6 then
    substring cpfLimpo 0 3 ++ "." ++ substringFrom cpfLimpo 3
  else if cpfLimpo.data.length ≤ 9 then
    substring cpfLimpo 0 3 ++ "." ++ substring cpfLimpo 3 6 ++ "." ++ substringFrom cpfLimpo 6
  else
    substring cpfLimpo 0 3 ++ "." ++ substring cpfLimpo 3 6 ++ "." ++ substring cpfLimpo 6 9 ++
      "-" ++ substring cpfLimpo 9 11

/-! ## Masking helpers -/

/-- The function `mascaraCPF` of `formatters.js` (lines 17-25). -/
def mascaraCPF (cpf : String) : String :=
  let cpfLimpo := somenteDigitos cpf
  if cpfLimpo.data.length ≠ 11 then cpfLimpo
  else substring cpfLimpo 0 3 ++ "*****" ++ substringFrom cpfLimpo 9

/-- The function `maskCPF` of `analyticsController.js` (lines 216-225) on a
string argument (`cpf.toString()` is then `cpf` itself). -/
def maskCPF (cpf : String) : String :=
  if cpf = "" then cpf
  else
    let cleaned := somenteDigitos cpf
    if cleaned.data.length ≠ 11 then cleaned
    else substring cleaned 0 3 ++ "*****" ++ substringFrom cleaned 9

/-! ## `FormSubmission.js`: the schema -/

/-- One entry of `verificacao.steps` (`{ verified: Boolean, timestamp: Date }`,
no defaults). -/
structure Etapa where
  verified : Option Bool
  timestamp : Option Nat
  deriving DecidableEq

/-- The nested object `verificacao.steps`. -/
structure Steps where
  dataNascimento : Etapa
  nomeMae : Etapa
  deriving DecidableEq

/-- The sub-schema `VerificationSchema` (lines 9-39). `method` ranges over the
enum `'two_step' | 'password' | 'token' | 'none'`; `attempts` is a counter
that the program only ever increments by one. -/
structure Verification where
  verified : Bool
  timestamp : Nat
  method : String
  steps : Steps
  attempts : Nat
  ipAddress : Option String
  userAgent : Option String
  deriving DecidableEq

/-- The sub-schema `DadosPessoaisSchema` (lines 42-59). -/
structure DadosPessoais where
  nome : Option String
  dataNascimento : Option String
  nomeMae : Option String
  genero : Option String
  deriving DecidableEq

/-- The sub-schema `DadosCartaoSchema` (lines 62-77): its paths are `numero`,
`validade` and `cvv`. `ultimosDigitos` is NOT a path of the schema: it is the
property that the pre-save hook assigns on the in-memory sub-document (line
201). Mongoose keeps such a property on the JavaScript object only: it is
neither part of `toObject()` nor written to the database. -/
structure DadosCartao where
  numero : Option String
  validade : Option String
  cvv : Option String
  ultimosDigitos : Option String
  deriving DecidableEq

/-- The sub-schema `EnderecoSchema` (lines 80-109). -/
structure Endereco where
  cep : Option String
  logradouro : Option String
  numero : Option String
  complemento : Option String
  bairro : Option String
  cidade : Option String
  estado : Option String
  deriving DecidableEq

/-- A JavaScript number obtained from `parseFloat`, kept as the text handed to
`parseFloat`. The floating-point value itself is not modelled; what the
control flow depends on is only whether the result is `NaN`. -/
structure Numero where
  texto : String
  deriving DecidableEq

/-- The sub-schema `DadosFinanceirosSchema` (lines 112-122). -/
structure DadosFinanceiros where
  renda : Option Numero
  limiteAtual : Option Numero
  limiteDesejado : Option Numero
  deriving DecidableEq

/-- A document of `FormSubmissionSchema` (lines 125-189). The fields up to
`protocoloGerado` are paths of the schema (`_id`, `location`, `createdAt` and
`updatedAt`, which no modelled operation reads or writes, are left out).
`cpfMascarado` is NOT a path of the schema: it is the property assigned by
the pre-save hook (line 195) on the in-memory document. -/
structure FormSubmission where
  sessionId : Option String
  timestamp : Nat
  cpf : Option String
  tipoProblema : Option String
  verificacao : Verification
  dadosPessoais : DadosPessoais
  dadosCartao : DadosCartao
  endereco : Endereco
  dadosFinanceiros : DadosFinanceiros
  userAgent : Option String
  ipAddress : Option String
  status : String
  protocoloGerado : Option String
  cpfMascarado : Option String
  deriving DecidableEq

/-- The schema defaults of `VerificationSchema`: `verified: false`,
`timestamp: Date.now`, `method: 'none'`, `attempts: 0`; the step entries have
no default. -/
def verificacaoPadrao (agora : Nat) : Verification :=
  { verified := false
    timestamp := agora
    method := "none"
    steps := { dataNascimento := { verified := none, timestamp := none }
               nomeMae := { verified := none, timestamp := none } }
    attempts := 0
    ipAddress := none
    userAgent := none }

/-! ## `FormSubmission.js`: hooks and methods -/

/-- The template literal of lines 195 and 278:
`${cpf.substring(0, 3)}*****${cpf.substring(9)}`, applied to the stored string
as it is (no digit stripping, no length test). -/
def mascararCpfBruto (cpf : String) : String :=
  substring cpf 0 3 ++ "*****" ++ substringFrom cpf 9

/-- The hook `FormSubmissionSchema.pre('save', ...)` (lines 192-205). It
assigns `cpfMascarado` and `dadosCartao.ultimosDigitos`; it does not touch
`dadosCartao.numero` or `dadosCartao.cvv`. -/
def preSave (r : FormSubmission) : FormSubmission :=
  let r1 : FormSubmission :=
    match r.cpf with
    | some cpf => if cpf != "" then { r with cpfMascarado := some (mascararCpfBruto cpf) } else r
    | none => r
  match r1.dadosCartao.numero with
  | some numero =>
    if numero != "" then
      let numeroCartao := somenteDigitos numero
      { r1 with dadosCartao := { r1.dadosCartao with ultimosDigitos := some (sliceUltimos4 numeroCartao) } }
    else r1
  | none => r1

/-- The call `this.toObject()`: a plain copy of the schema paths. Properties
that are not paths of the schema (`cpfMascarado`, `dadosCartao.ultimosDigitos`)
are not part of it. -/
def toObject (r : FormSubmission) : FormSubmission :=
  { r with cpfMascarado := none, dadosCartao := { r.dadosCartao with ultimosDigitos := none } }

/-- The data that `save()` writes to the database: the schema paths. -/
def persistido (r : FormSubmission) : FormSubmission := toObject r

/-- The document that a default query (`findById`, `find`) builds from stored
data: `dadosCartao.numero` and `dadosCartao.cvv` are declared `select: false`
and are not loaded. -/
def carregar (r : FormSubmission) : FormSubmission :=
  { r with dadosCartao := { r.dadosCartao with numero := none, cvv := none } }

/-- The expression `a || '****'` of line 284. -/
def ouQuatroEstrelas (a : Option String) : String :=
  match a with
  | some s => if s != "" then s else "****"
  | none => "****"

/-- The method `sanitizarParaExibicao` (lines 273-293). The result is the
object `obj`; every assignment of the method is to `obj`, a copy, so the
document `this` is the same before and after the call. `obj.dadosCartao` is
always present (schema default `{}`), so the test of line 282 passes. -/
def sanitizarParaExibicao (r : FormSubmission) : FormSubmission :=
  let obj := toObject r
  let obj1 : FormSubmission :=
    match obj.cpf with
    | some cpf => if cpf != "" then { obj with cpf := some (mascararCpfBruto cpf) } else obj
    | none => obj
  let c := obj1.dadosCartao
  let c1 : DadosCartao :=
    match c.numero with
    | some numero =>
      if numero != "" then { c with numero := some ("****" ++ ouQuatroEstrelas c.ultimosDigitos) } else c
    | none => c
  let c2 : DadosCartao :=
    match c1.cvv with
    | some cvv => if cvv != "" then { c1 with cvv := some "***" } else c1
    | none => c1
  { obj1 with dadosCartao := c2 }

/-- The three return values of `verificarCPF`: `false`, `'partial'`, `true`. -/
inductive Retorno where
  | falso
  | parcial
  | verdadeiro
  deriving DecidableEq

/-- The method `verificarCPF` (lines 222-270). The arguments are strings or
`undefined`; `===` on them is equality of `Option String`. Returns the
return value and the document after the call. -/
def verificarCPF (r : FormSubmission) (agora : Nat) (dataNascimento nomeMae : Option String) :
    Retorno × FormSubmission :=
  let dataNascimentoVerificada : Bool := r.dadosPessoais.dataNascimento == dataNascimento
  if !dataNascimentoVerificada then
    (Retorno.falso,
      { r with verificacao := { r.verificacao with
          steps := { r.verificacao.steps with
            dataNascimento := { verified := some false, timestamp := some agora } }
          attempts := r.verificacao.attempts + 1 } })
  else
    let r1 : FormSubmission :=
      { r with verificacao := { r.verificacao with
          steps := { r.verificacao.steps with
            dataNascimento := { verified := some true, timestamp := some agora } } } }
    if !truthy nomeMae then (Retorno.parcial, r1)
    else
      let nomeMaeVerificado : Bool := r1.dadosPessoais.nomeMae == nomeMae
      let r2 : FormSubmission :=
        { r1 with verificacao := { r1.verificacao with
            steps := { r1.verificacao.steps with
              nomeMae := { verified := some nomeMaeVerificado, timestamp := some agora } } } }
      if !nomeMaeVerificado then
        (Retorno.falso, { r2 with verificacao := { r2.verificacao with
            attempts := r2.verificacao.attempts + 1 } })
      else
        (Retorno.verdadeiro, { r2 with verificacao := { r2.verificacao with
            verified := true, method := "two_step", timestamp := agora } })

/-- The number of binary digits of `n` (0 for 0), computed with `f` halving
steps; `f = 128` covers every product formed below. -/
def comprimentoBits : Nat → Nat → Nat
  | 0, _ => 0
  | f + 1, n => if n = 0 then 0 else comprimentoBits f (n / 2) + 1

/-- IEEE-754 double rounding of the exact value `p / 2^53`, given as the
numerator over `2^53` of the nearest double (round to nearest, ties to even).
A value with `L > 53` binary digits in `p` lies between doubles spaced
`2^(L-53) / 2^53` apart: the 53 leading digits `q` are kept and the remaining
`s = L - 53` digits `r` decide the direction. A `p` of at most 53 digits is
exact. -/
def arredondar53 (p : Nat) : Nat :=
  let s := comprimentoBits 128 p - 53
  let q := p / 2 ^ s
  let r := p % 2 ^ s
  if 2 * r > 2 ^ s ∨ (2 * r = 2 ^ s ∧ q % 2 = 1) then (q + 1) * 2 ^ s else q * 2 ^ s

/-- The expression `Math.floor(Math.random() * 9000)` for the draw `m / 2^53`:
the exact product is `9000 * m / 2^53`, the double product is its rounding,
and `Math.floor` of it is the integer quotient by `2^53`. -/
def sorteio9000 (m : Nat) : Nat := arredondar53 (9000 * m) / 2 ^ 53

/-- The method `gerarProtocolo` (lines 208-219). `Date.now()` is `agora` and
`Math.random()` is the double `m / 2^53`. The assignment to the schema path
`protocoloGerado` runs its `trim` setter. Returns the stored string and the
document. -/
def gerarProtocolo (r : FormSubmission) (agora m : Nat) : String × FormSubmission :=
  let timestamp : String := ⟨(Nat.repr agora).data.drop ((Nat.repr agora).data.length - 6)⟩
  let random : Nat := sorteio9000 m + 1000
  let protocolo := trim (timestamp ++ Nat.repr random)
  (protocolo, { r with protocoloGerado := some protocolo })

/-! ## The creation path -/

/-- The form payload `formData` of a request: each field is a string or
absent. (Payloads with fields of other JSON types are outside the model.) -/
structure FormData where
  cpf : Option String
  issueType : Option String
  nome : Option String
  cardNumber : Option String
  cardExpiry : Option String
  cardCvv : Option String
  cep : Option String
  street : Option String
  number : Option String
  complement : Option String
  neighborhood : Option String
  city : Option String
  state : Option String
  income : Option String
  currentLimit : Option String
  desiredLimit : Option String
  deriving DecidableEq

/-- The exceptions of the creation path: the `TypeError` of calling `.replace`
on `undefined`, and the validation error with which `save()` rejects. -/
inductive Erro where
  | typeError
  | validationError
  deriving DecidableEq

/-- The call `s.replace('.', '')`: delete the first occurrence of `c`. -/
def removerPrimeiro (c : Char) : List Char → List Char
  | [] => []
  | x :: xs => if x == c then xs else x :: removerPrimeiro c xs

/-- The call `s.replace(',', '.')`: replace the first occurrence of `c` by `d`. -/
def trocarPrimeiro (c d : Char) : List Char → List Char
  | [] => []
  | x :: xs => if x == c then d :: xs else x :: trocarPrimeiro c d xs

/-- The text `v.replace(/[^\d,.]/g, '').replace('.', '').replace(',', '.')`
of lines 382-383. -/
def textoMonetario (v : String) : String :=
  ⟨trocarPrimeiro ',' '.'
    (removerPrimeiro '.' (v.data.filter (fun c => ehDigito c || c == ',' || c == '.')))⟩

/-- Whether a character list starts a decimal literal: a digit, or a dot
followed by a digit. -/
def comecaDecimal : List Char → Bool
  | c :: d :: _ => ehDigito c || (c == '.' && ehDigito d)
  | [c] => ehDigito c
  | [] => false

/-- Whether `parseFloat(s)` is `NaN`: after leading white space and an
optional sign, the text starts neither a decimal literal nor `Infinity`. -/
def parseFloatNaN (s : String) : Bool :=
  let cs := s.data.dropWhile ehEspaco
  let cs := match cs with
    | '+' :: resto => resto
    | '-' :: resto => resto
    | _ => cs
  !(comecaDecimal cs || "Infinity".data.isPrefixOf cs)

/-- The object returned by `converterFormData` for a present `formData`. -/
structure Convertido where
  cpf : Option String
  tipoProblema : Option String
  dadosPessoais : DadosPessoais
  dadosCartao : DadosCartao
  endereco : Endereco
  dadosFinanceiros : DadosFinanceiros
  deriving DecidableEq

/-- The static `converterFormData` (lines 358-387) on a present `formData`
(the caller has already excluded a falsy one). `formData.income.replace` and
`formData.currentLimit.replace` throw a `TypeError` when the field is
`undefined`; `parseFloat(formData.desiredLimit)` parses the text `'undefined'`
when the field is absent. -/
def converterFormData (formData : FormData) : Except Erro Convertido :=
  match formData.income with
  | none => Except.error Erro.typeError
  | some income =>
    match formData.currentLimit with
    | none => Except.error Erro.typeError
    | some currentLimit =>
      Except.ok
        { cpf := formData.cpf
          tipoProblema := formData.issueType
          dadosPessoais :=
            { nome := formData.nome, dataNascimento := none, nomeMae := none, genero := none }
          dadosCartao :=
            { numero := formData.cardNumber, validade := formData.cardExpiry
              cvv := formData.cardCvv, ultimosDigitos := none }
          endereco :=
            { cep := formData.cep, logradouro := formData.street, numero := formData.number
              complemento := formData.complement, bairro := formData.neighborhood
              cidade := formData.city, estado := formData.state }
          dadosFinanceiros :=
            { renda := some ⟨textoMonetario income⟩
              limiteAtual := some ⟨textoMonetario currentLimit⟩
              limiteDesejado := some ⟨formData.desiredLimit.getD "undefined"⟩ } }

/-- The request body of `createSubmission`. `formData` is `none` when the
body carries no (or a falsy) `formData`. -/
structure Corpo where
  sessionId : Option String
  formData : Option FormData
  userAgent : Option String
  timestamp : Option Nat
  deriving DecidableEq

/-- The constructor call of lines 26-34, `new FormSubmission({ sessionId,
cpf, tipoProblema, userAgent, ipAddress, timestamp: timestamp || new Date(),
...submissionData })`: the paths named in the argument are set through their
`trim` setters, every other path takes its schema default
(`verificacao`: `verificacaoPadrao`, `status`: `'novo'`). -/
def novoFormSubmission (corpo : Corpo) (clientIp : Option String) (d : Convertido)
    (agora : Nat) : FormSubmission :=
  { sessionId := corpo.sessionId.map trim
    timestamp := match corpo.timestamp with
      | some t => if t = 0 then agora else t
      | none => agora
    cpf := d.cpf.map trim
    tipoProblema := d.tipoProblema.map trim
    verificacao := verificacaoPadrao agora
    dadosPessoais :=
      { nome := d.dadosPessoais.nome.map trim
        dataNascimento := d.dadosPessoais.dataNascimento.map trim
        nomeMae := d.dadosPessoais.nomeMae.map trim
        genero := d.dadosPessoais.genero.map trim }
    dadosCartao :=
      { numero := d.dadosCartao.numero.map trim
        validade := d.dadosCartao.validade.map trim
        cvv := d.dadosCartao.cvv.map trim
        ultimosDigitos := none }
    endereco :=
      { cep := d.endereco.cep.map trim
        logradouro := d.endereco.logradouro.map trim
        numero := d.endereco.numero.map trim
        complemento := d.endereco.complemento.map trim
        bairro := d.endereco.bairro.map trim
        cidade := d.endereco.cidade.map trim
        estado := d.endereco.estado.map trim }
    dadosFinanceiros := d.dadosFinanceiros
    userAgent := corpo.userAgent.map trim
    ipAddress := clientIp.map trim
    status := "novo"
    protocoloGerado := none
    cpfMascarado := none }

/-- A number path accepts its value: Mongoose's cast to `Number` rejects `NaN`. -/
def numeroValido (n : Option Numero) : Bool :=
  match n with
  | none => true
  | some x => !parseFloatNaN x.texto

/-- The validation that `save()` runs before the pre-save hook, read off the
schema: `sessionId` and `cpf` are `required` (a non-empty string),
`tipoProblema`, `status` and `verificacao.method` are in their `enum` when
set, and the three `Number` paths hold a number. -/
def validar (r : FormSubmission) : Bool :=
  truthy r.sessionId && truthy r.cpf &&
  (match r.tipoProblema with
    | none => true
    | some t => ["limite", "bugs", "aumentarLimite", "emprestimo", "outros"].contains t) &&
  ["novo", "em_análise", "atendido", "cancelado"].contains r.status &&
  ["two_step", "password", "token", "none"].contains r.verificacao.method &&
  numeroValido r.dadosFinanceiros.renda &&
  numeroValido r.dadosFinanceiros.limiteAtual &&
  numeroValido r.dadosFinanceiros.limiteDesejado

/-- An analytics event, reduced to the two `required` paths of
`AnalyticsEventSchema`. -/
structure Evento where
  eventType : String
  sessionId : String
  deriving DecidableEq

/-- The database: the stored submissions and the stored analytics events. -/
structure Banco where
  submissoes : List FormSubmission
  eventos : List Evento
  deriving DecidableEq

/-- The call `submission.save()`: validation, then the pre-save hook, then the
write of the schema paths. Returns the database and the in-memory document. -/
def save (bd : Banco) (r : FormSubmission) : Except Erro (Banco × FormSubmission) :=
  if validar r then
    let r1 := preSave r
    Except.ok ({ bd with submissoes := bd.submissoes ++ [persistido r1] }, r1)
  else Except.error Erro.validationError

/-- Saving an analytics event: it is stored when its `required`, trimmed
`sessionId` is non-empty, and rejected otherwise. -/
def salvarEvento (bd : Banco) (eventType : String) (sessionId : String) : Option Banco :=
  if trim sessionId != "" then
    some { bd with eventos := bd.eventos ++ [{ eventType := eventType, sessionId := trim sessionId }] }
  else none

/-- The HTTP response of `createSubmission`: 201 with protocol and timestamp,
400 (incomplete data), or 500 with the error caught. -/
inductive Resposta where
  | criado (protocolo : Option String) (timestamp : Nat)
  | dadosIncompletos
  | erroInterno (erro : Erro)
  deriving DecidableEq

/-- The `catch` block of `createSubmission` (lines 67-92): it tries to store a
`formSubmissionError` event under `req.body.sessionId || 'unknown'`, ignores a
failure of that, and answers 500. -/
def tratarErro (bd : Banco) (corpo : Corpo) (erro : Erro) : Resposta × Banco :=
  let sessionId := match corpo.sessionId with
    | some s => if s != "" then s else "unknown"
    | none => "unknown"
  (Resposta.erroInterno erro, (salvarEvento bd "formSubmissionError" sessionId).getD bd)

/-- The handler `createSubmission` (lines 9-93 of `submissionController.js`).
Returns the response and the database after the request. -/
def createSubmission (bd : Banco) (corpo : Corpo) (clientIp : Option String)
    (agora m : Nat) : Resposta × Banco :=
  match corpo.formData with
  | none => (Resposta.dadosIncompletos, bd)
  | some formData =>
    if !truthy corpo.sessionId then (Resposta.dadosIncompletos, bd)
    else
      match converterFormData formData with
      | Except.error e => tratarErro bd corpo e
      | Except.ok submissionData =>
        let submission := novoFormSubmission corpo clientIp submissionData agora
        let submission := (gerarProtocolo submission agora m).2
        match save bd submission with
        | Except.error e => tratarErro bd corpo e
        | Except.ok (bd1, salvo) =>
          match salvarEvento bd1 "formSubmissionSuccess" (corpo.sessionId.getD "") with
          | none => tratarErro bd1 corpo Erro.validationError
          | some bd2 => (Resposta.criado salvo.protocoloGerado salvo.timestamp, bd2)

/-! ## `analyticsController.js`: sanitising event data -/

/-- The value of a sensitive field of an analytics event: absent, a string or
a (natural) number. -/
inductive Campo where
  | ausente
  | texto (s : String)
  | numero (n : Nat)
  deriving DecidableEq

/-- JavaScript truthiness of a field value. -/
def Campo.verdadeiro : Campo → Bool
  | Campo.ausente => false
  | Campo.texto s => s != ""
  | Campo.numero n => n != 0

/-- The call `v.toString()` on a present field value. -/
def Campo.paraTexto : Campo → String
  | Campo.ausente => ""
  | Campo.texto s => s
  | Campo.numero n => Nat.repr n

/-- The argument of `sanitizeSensitiveData`: `undefined`, or an object with
the four sensitive fields, the nested objects `formData` and `data` (each an
object of the same kind or absent) and its other fields, kept as a list of
name and value. -/
inductive Dados where
  | ausente
  | objeto (cardNumber cardCvv password cpf : Campo) (formData data : Dados)
      (outros : List (String × Campo))
  deriving DecidableEq

/-- The test `typeof v === 'string'`. -/
def Campo.ehTexto : Campo → Bool
  | Campo.texto _ => true
  | _ => false

/-- The body of the `forEach` of `sanitizeSensitiveData` (lines 284-299) for
the field named `campo` holding `v`: a falsy value is left alone; `cpf` goes
through `maskCPF`; a string `cardNumber` becomes `****` followed by
`slice(-4)` of the string as it is; anything else is replaced by the hex
SHA-256 digest of its text, `sha256`. -/
def sanitizarCampo (sha256 : String → String) (campo : String) (v : Campo) : Campo :=
  if v.verdadeiro then
    if campo = "cpf" then Campo.texto (maskCPF v.paraTexto)
    else if campo = "cardNumber" ∧ v.ehTexto = true then
      Campo.texto ("****" ++ sliceUltimos4 v.paraTexto)
    else Campo.texto (sha256 v.paraTexto)
  else v

/-- The function `sanitizeSensitiveData` (lines 277-311). -/
def sanitizeSensitiveData (sha256 : String → String) : Dados → Dados
  | Dados.ausente => Dados.ausente
  | Dados.objeto cardNumber cardCvv password cpf formData data outros =>
    Dados.objeto (sanitizarCampo sha256 "cardNumber" cardNumber)
      (sanitizarCampo sha256 "cardCvv" cardCvv)
      (sanitizarCampo sha256 "password" password)
      (sanitizarCampo sha256 "cpf" cpf)
      (sanitizeSensitiveData sha256 formData)
      (sanitizeSensitiveData sha256 data)
      outros

/-! ## The read handlers -/

/-- The outcome of a read handler: 200 with data, 404 or 400. -/
inductive Leitura (α : Type) where
  | ok (dados : α)
  | naoEncontrado
  | requisicaoInvalida
  deriving DecidableEq

/-- The query `FormSubmission.findById(id)`: the stored record with that
identifier (here: its position in the collection), loaded without the
`select: false` paths. -/
def findById (bd : Banco) (id : Nat) : Option FormSubmission :=
  (bd.submissoes[id]?).map carregar

/-- The query `FormSubmission.find(filter).sort({ createdAt: -1 }).skip(skip).limit(limit)`:
the stored records that pass the filter, newest first, loaded without the
`select: false` paths. -/
def find (bd : Banco) (filtro : FormSubmission → Bool) (skip limit : Nat) : List FormSubmission :=
  ((((bd.submissoes.filter filtro).reverse).drop skip).take limit).map carregar

/-- The handler `getSubmissionById` of `submissionController.js` (lines 96-122). -/
def getSubmissionById (bd : Banco) (id : Nat) : Leitura FormSubmission :=
  match findById bd id with
  | none => Leitura.naoEncontrado
  | some submission => Leitura.ok (sanitizarParaExibicao submission)

/-- The handler `getSubmissionsByCPF` (lines 125-159): no `skip` or `limit`. -/
def getSubmissionsByCPF (bd : Banco) (cpf : String) : Leitura (List FormSubmission) :=
  let cpfLimpo := somenteDigitos cpf
  if !validarCPF cpfLimpo then Leitura.requisicaoInvalida
  else
    Leitura.ok ((find bd (fun r => r.cpf == some cpfLimpo) 0 bd.submissoes.length).map
      sanitizarParaExibicao)

/-- The filter `{ status }` that the list handlers build when `status` is truthy. -/
def filtroStatus (status : Option String) (r : FormSubmission) : Bool :=
  match status with
  | some s => if s != "" then r.status == s else true
  | none => true

/-- The handler `listSubmissions` (lines 220-261). -/
def listSubmissions (bd : Banco) (status : Option String) (skip limit : Nat) :
    Leitura (List FormSubmission) :=
  Leitura.ok ((find bd (filtroStatus status) skip limit).map sanitizarParaExibicao)

/-- The handler `getSubmissions` of `adminController.js` (lines 374-418); `filtro`
is the filter built from `status` and `search`. The documents found are put in
the response as they are: `res.json` serialises the schema paths that were
loaded. -/
def adminGetSubmissions (bd : Banco) (filtro : FormSubmission → Bool) (skip limit : Nat) :
    Leitura (List FormSubmission) :=
  Leitura.ok ((find bd filtro skip limit).map toObject)

/-- The handler `getSubmissionDetails` of `adminController.js` (lines 421-448),
without the list of events. -/
def adminGetSubmissionDetails (bd : Banco) (id : Nat) : Leitura FormSubmission :=
  match findById bd id with
  | none => Leitura.naoEncontrado
  | some submission => Leitura.ok (toObject submission)

/-- The handler `updateSubmission` of `adminController.js` (lines 451-482):
`findByIdAndUpdate` sets `status` when the request carries a truthy one
(`adminNotes` is not a path of the schema) and returns the updated document.
Returns the response and the database. -/
def adminUpdateSubmission (bd : Banco) (id : Nat) (status : Option String) :
    Leitura FormSubmission × Banco :=
  match bd.submissoes[id]? with
  | none => (Leitura.naoEncontrado, bd)
  | some r =>
    let r1 : FormSubmission :=
      match status with
      | some s => if s != "" then { r with status := s } else r
      | none => r
    (Leitura.ok (toObject (carregar r1)), { bd with submissoes := bd.submissoes.set id r1 })

/-- A request body of the route `POST /api/submissions` of `submissions.js`:
the national ID, the card fields and the other fields, as sent. -/
structure CorpoLegado where
  cpf : Option String
  cardNumber : Option String
  cardCvv : Option String
  outros : List (String × String)
  deriving DecidableEq

/-- A document of the collection written by `config/db.js`: the request body
with the protocol and the initial status. -/
structure RegistroLegado where
  corpo : CorpoLegado
  protocol : String
  status : String
  deriving DecidableEq

/-- The route `POST /api/submissions` (lines 9-42 of `submissions.js`):
`sorteado` stands for `Math.floor(Math.random() * 9000000)`. A missing CPF is
answered 400; otherwise the body is stored as it is. Returns whether the
request was accepted and the collection. -/
def postSubmissions (colecao : List RegistroLegado) (corpo : CorpoLegado) (sorteado : Nat) :
    Bool × List RegistroLegado :=
  if !truthy corpo.cpf then (false, colecao)
  else
    (true, colecao ++ [{ corpo := corpo, protocol := Nat.repr (sorteado + 1000000)
                         status := "novo" }])

/-- The route `GET /api/submissions` (lines 47-55 of `submissions.js`): every
stored document, newest first, as stored. -/
def getSubmissions (colecao : List RegistroLegado) : List RegistroLegado := colecao.reverse

/-! ## Reference definitions that follow the specification's wording -/

/-- The value of a two-digit decimal text. -/
def doisDigitos (a b : Char) : Nat := (a.toNat - 48) * 10 + (b.toNat - 48)

/-- The normalisation that the specification asks for in step 1, following its
words ("birthDate (string, DD/MM/YYYY or ISO)", "both sides normalized before
comparison"): the calendar date `(year, month, day)` denoted by a text in
either notation. This definition is NOT part of the program. -/
def dataCanonicaSpec (s : String) : Option (Nat × Nat × Nat) :=
  match s.data with
  | [d1, d2, '/', m1, m2, '/', y1, y2, y3, y4] =>
    if [d1, d2, m1, m2, y1, y2, y3, y4].all ehDigito then
      some (doisDigitos y1 y2 * 100 + doisDigitos y3 y4, doisDigitos m1 m2, doisDigitos d1 d2)
    else none
  | [y1, y2, y3, y4, '-', m1, m2, '-', d1, d2] =>
    if [d1, d2, m1, m2, y1, y2, y3, y4].all ehDigito then
      some (doisDigitos y1 y2 * 100 + doisDigitos y3 y4, doisDigitos m1 m2, doisDigitos d1 d2)
    else none
  | _ => none

/-- The numeric value of a digit character. -/
def valorDigito (c : Char) : Nat := c.toNat - 48

/-- The digit `d_i` of a digit list, counted from 1, as a number. -/
def digitoSpec (ds : List Char) (i : Nat) : Nat := valorDigito (ds.getD (i - 1) '0')

/-- A CPF check digit as the specification words it: `(10 * sum) mod 11`,
with a result of 10 coerced to 0. -/
def verificadorSpec (soma : Nat) : Nat :=
  if (10 * soma) % 11 = 10 then 0 else (10 * soma) % 11

/-- Validity of a CPF as the specification words it: the digit-stripped text
has exactly 11 digits `d1..d11`, not all identical, with
`d10 = c1 = (10 * sum_{i=1..9} d_i * (11 - i)) mod 11` and
`d11 = c2 = (10 * sum_{i=1..10} d_i * (12 - i)) mod 11`, 10 coerced to 0. -/
def cpfValidoSpec (s : String) : Prop :=
  (somenteDigitos s).data.length = 11 ∧
  ¬ (∀ x ∈ (somenteDigitos s).data, x = (somenteDigitos s).data.getD 0 '0') ∧
  digitoSpec (somenteDigitos s).data 10 =
    verificadorSpec (∑ i in Finset.Icc 1 9, digitoSpec (somenteDigitos s).data i * (11 - i)) ∧
  digitoSpec (somenteDigitos s).data 11 =
    verificadorSpec (∑ i in Finset.Icc 1 10, digitoSpec (somenteDigitos s).data i * (12 - i))

/-- The Luhn term of the digit `d` standing at position `k` counted from the
right, the rightmost digit being at position 1: a digit at an odd position is
left unchanged, a digit at an even position is doubled, minus 9 when the
doubled value exceeds 9. -/
def parcelaLuhnSpec (k d : Nat) : Nat :=
  if k % 2 = 1 then d else (if 2 * d > 9 then 2 * d - 9 else 2 * d)

/-- The Luhn sum of a digit list as the specification words it: the sum of
the Luhn terms of all digits, scanned from the rightmost. -/
def somaLuhnSpec (ds : List Char) : Nat :=
  ((ds.reverse.enumFrom 1).map (fun p => parcelaLuhnSpec p.1 (valorDigito p.2))).sum

/-- Validity of a card number as the specification words it: between 13 and
19 digits after stripping, and a Luhn sum divisible by 10. -/
def cartaoValidoSpec (s : String) : Prop :=
  13 ≤ (somenteDigitos s).data.length ∧ (somenteDigitos s).data.length ≤ 19 ∧
  somaLuhnSpec (somenteDigitos s).data % 10 = 0

/-- The standard rule for a CPF check digit: 0 when the weighted sum modulo 11
is below 2, otherwise 11 minus that remainder. This definition is NOT part of
the program. -/
def verificadorPadrao (soma : Nat) : Nat := if soma % 11 < 2 then 0 else 11 - soma % 11

/-- The decimal representation of `x` with exactly `k` digits, left-padded
with zeros (the digits of `x mod 10^k`). This definition is NOT part of the
program. -/
def decimalFixo : Nat → Nat → List Char
  | 0, _ => []
  | k + 1, x => decimalFixo k (x / 10) ++ [Nat.digitChar (x % 10)]

/-- The state that the specification calls Unverified, with the initial
status: nothing verified, method `'none'`, no attempt counted, no step marked
verified, status `'novo'`. -/
def NaoVerificado (r : FormSubmission) : Prop :=
  r.verificacao.verified = false ∧ r.verificacao.method = "none" ∧
  r.verificacao.attempts = 0 ∧
  r.verificacao.steps.dataNascimento.verified ≠ some true ∧
  r.verificacao.steps.nomeMae.verified ≠ some true ∧
  r.status = "novo"

/-- The states reachable from `r0` by calls of `verificarCPF` with any
arguments at any times. -/
inductive Alcancavel (r0 : FormSubmission) : FormSubmission → Prop where
  | inicio : Alcancavel r0 r0
  | passo (r : FormSubmission) (agora : Nat) (d m : Option String) :
      Alcancavel r0 r → Alcancavel r0 (verificarCPF r agora d m).2

/-- Run a sequence of `verificarCPF` calls, each on the document left by the
previous one, and list the return value and the `attempts` counter after
each call. -/
def executar (r : FormSubmission) (agora : Nat) :
    List (Option String × Option String) → List (Retorno × Nat)
  | [] => []
  | (d, m) :: resto =>
    ((verificarCPF r agora d m).1, (verificarCPF r agora d m).2.verificacao.attempts) ::
      executar (verificarCPF r agora d m).2 agora resto

/-! ## Sample data used by the concrete statements -/

/-- A stored record with the given CPF, card number, CVV, birth date and
mother's name, in the state the constructor leaves it in. -/
def registroExemplo (cpf numero cvv dataNascimento nomeMae : Option String) : FormSubmission :=
  { sessionId := some "s1"
    timestamp := 1700000000000
    cpf := cpf
    tipoProblema := some "limite"
    verificacao := verificacaoPadrao 1700000000000
    dadosPessoais :=
      { nome := some "Ana", dataNascimento := dataNascimento, nomeMae := nomeMae, genero := none }
    dadosCartao := { numero := numero, validade := some "12/30", cvv := cvv, ultimosDigitos := none }
    endereco :=
      { cep := none, logradouro := none, numero := none, complemento := none, bairro := none
        cidade := none, estado := none }
    dadosFinanceiros := { renda := none, limiteAtual := none, limiteDesejado := none }
    userAgent := none
    ipAddress := none
    status := "novo"
    protocoloGerado := none
    cpfMascarado := none }

/-- A form payload that is complete apart from the given CPF and card number. -/
def formularioExemplo (cpf cardNumber : Option String) : FormData :=
  { cpf := cpf, issueType := some "limite", nome := some "Ana", cardNumber := cardNumber
    cardExpiry := some "12/30", cardCvv := some "123", cep := none, street := none
    number := none, complement := none, neighborhood := none, city := none, state := none
    income := some "R$ 1.000,00", currentLimit := some "500", desiredLimit := some "2000" }

/-- A request body around `formularioExemplo`. -/
def corpoExemplo (sessionId : Option String) (cpf cardNumber : Option String) : Corpo :=
  { sessionId := sessionId, formData := some (formularioExemplo cpf cardNumber)
    userAgent := none, timestamp := none }

/-- A fresh record whose stored birth date is "1990-01-31" and whose stored
mother's name is "Maria Silva". -/
def registroMaria : FormSubmission :=
  registroExemplo (some "52998224725") none none (some "1990-01-31") (some "Maria Silva")

/-- The object that `converterFormData` returns for `formularioExemplo` with
the CPF "52998224725" and no card number. -/
def convertidoExemplo : Convertido :=
  { cpf := some "52998224725", tipoProblema := some "limite"
    dadosPessoais := { nome := some "Ana", dataNascimento := none, nomeMae := none, genero := none }
    dadosCartao := { numero := none, validade := some "12/30", cvv := some "123"
                     ultimosDigitos := none }
    endereco := { cep := none, logradouro := none, numero := none, complemento := none
                  bairro := none, cidade := none, estado := none }
    dadosFinanceiros := { renda := some ⟨"1000.00"⟩, limiteAtual := some ⟨"500"⟩
                          limiteDesejado := some ⟨"2000"⟩ } }

/-- A database holding one stored submission: the sample record with a card. -/
def bancoExemplo : Banco :=
  { submissoes := [persistido (preSave (registroExemplo (some "52998224725")
      (some "4532015112830366") (some "123") (some "1990-01-31") (some "Maria Silva")))]
    eventos := [] }

/-- The empty database. -/
def bancoVazio : Banco := { submissoes := [], eventos := [] }

/-! ## Auxiliary lemmas -/

theorem truthy_some {v : Option String} (h : truthy v = true) : ∃ s, v = some s ∧ s ≠ "" := by
  cases v with
  | none => simp [truthy] at h
  | some s => exact ⟨s, rfl, by simpa [truthy] using h⟩

theorem opcao_casos (x : Option String) :
    x = none ∨ x = some "" ∨ ∃ s, x = some s ∧ s ≠ "" := by
  cases x with
  | none => exact Or.inl rfl
  | some s =>
    by_cases h : s = ""
    · exact Or.inr (Or.inl (by rw [h]))
    · exact Or.inr (Or.inr ⟨s, rfl, h⟩)

/-- The pre-save hook changes nothing but the two properties outside the schema. -/
theorem preSave_campos (r : FormSubmission) :
    (preSave r).protocoloGerado = r.protocoloGerado ∧ (preSave r).timestamp = r.timestamp ∧
    (preSave r).cpf = r.cpf ∧ (preSave r).verificacao = r.verificacao ∧
    (preSave r).status = r.status ∧
    (preSave r).dadosCartao.numero = r.dadosCartao.numero ∧
    (preSave r).dadosCartao.cvv = r.dadosCartao.cvv ∧
    (preSave r).dadosCartao.validade = r.dadosCartao.validade := by
  obtain ⟨sid, ts, cpf, tp, v, dp, ⟨n, val, cvv, ud⟩, en, df, ua, ip, st, pg, cm⟩ := r
  rcases opcao_casos cpf with h1 | h1 | ⟨c, h1, h1'⟩ <;>
    rcases opcao_casos n with h2 | h2 | ⟨x, h2, h2'⟩ <;>
    subst h1 <;> subst h2 <;> simp [preSave, *]

theorem persistido_preSave (r : FormSubmission) : persistido (preSave r) = persistido r := by
  obtain ⟨sid, ts, cpf, tp, v, dp, ⟨n, val, cvv, ud⟩, en, df, ua, ip, st, pg, cm⟩ := r
  rcases opcao_casos cpf with h1 | h1 | ⟨c, h1, h1'⟩ <;>
    rcases opcao_casos n with h2 | h2 | ⟨x, h2, h2'⟩ <;>
    subst h1 <;> subst h2 <;> simp [preSave, persistido, toObject, *]

theorem validar_gerarProtocolo (r : FormSubmission) (agora m : Nat) :
    validar (gerarProtocolo r agora m).2 = validar r := by
  simp [validar, gerarProtocolo]

theorem truthy_map_trim (v : Option String) :
    truthy (v.map trim) = true → trim (v.getD "") ≠ "" := by
  cases v with
  | none => simp [truthy]
  | some s => simp [truthy]

/-- The card part of the sanitised view when number and CVV are present. -/
theorem sanitizar_cartao_de_truthy (r : FormSubmission)
    (hn : truthy r.dadosCartao.numero = true) (hc : truthy r.dadosCartao.cvv = true) :
    (sanitizarParaExibicao r).dadosCartao =
      { numero := some "********", validade := r.dadosCartao.validade, cvv := some "***",
        ultimosDigitos := none } := by
  obtain ⟨n, hn1, hn2⟩ := truthy_some hn
  obtain ⟨c, hc1, hc2⟩ := truthy_some hc
  unfold sanitizarParaExibicao toObject
  cases hcpf : r.cpf with
  | none => simp [hn1, hc1, hn2, hc2, ouQuatroEstrelas]
  | some x =>
    by_cases hx : x = ""
    · simp [hn1, hc1, hn2, hc2, ouQuatroEstrelas, hx]
    · simp [hn1, hc1, hn2, hc2, ouQuatroEstrelas, hx]

/-- The sanitised view outside the card part does not depend on the card part. -/
theorem sanitizar_fora_do_cartao (r : FormSubmission) :
    sanitizarParaExibicao r =
      { sanitizarParaExibicao { r with dadosCartao := ⟨none, none, none, none⟩ } with
        dadosCartao := (sanitizarParaExibicao r).dadosCartao } := by
  unfold sanitizarParaExibicao toObject
  cases r.cpf with
  | none => simp
  | some x => by_cases hx : x = "" <;> simp [hx]

/-- The outcome of `createSubmission` once the two guards and the conversion
have passed: it is decided by `validar` on the constructed document. -/
theorem createSubmission_ok (bd : Banco) (corpo : Corpo) (ip : Option String) (agora m : Nat)
    (fd : FormData) (d : Convertido) (h : corpo.formData = some fd)
    (hs : truthy corpo.sessionId = true) (hd : converterFormData fd = Except.ok d) :
    createSubmission bd corpo ip agora m =
      if validar (novoFormSubmission corpo ip d agora) = true then
        (Resposta.criado (some (gerarProtocolo (novoFormSubmission corpo ip d agora) agora m).1)
            (novoFormSubmission corpo ip d agora).timestamp,
          { submissoes := bd.submissoes ++
              [persistido (preSave (gerarProtocolo (novoFormSubmission corpo ip d agora) agora m).2)]
            eventos := bd.eventos ++
              [{ eventType := "formSubmissionSuccess", sessionId := trim (corpo.sessionId.getD "") }] })
      else tratarErro bd corpo Erro.validationError := by
  unfold createSubmission
  simp only [h, hs, hd, Bool.not_true, Bool.false_eq_true, if_false, save, validar_gerarProtocolo]
  by_cases hv : validar (novoFormSubmission corpo ip d agora) = true
  · have hsid : trim (corpo.sessionId.getD "") ≠ "" := by
      apply truthy_map_trim
      have : truthy (novoFormSubmission corpo ip d agora).sessionId = true := by
        simp only [validar, Bool.and_eq_true] at hv
        exact hv.1.1.1.1.1.1.1
      exact this
    simp [hv, salvarEvento, hsid, (preSave_campos _).1, (preSave_campos _).2.1, gerarProtocolo]
  · simp [hv]

theorem converterFormData_cpf (fd : FormData) (c : Option String) :
    converterFormData { fd with cpf := c } =
      (converterFormData fd).map (fun d => { d with cpf := c }) := by
  unfold converterFormData
  cases fd.income with
  | none => rfl
  | some i =>
    cases fd.currentLimit with
    | none => rfl
    | some l => rfl

theorem converterFormData_cardNumber (fd : FormData) (n : Option String) :
    converterFormData { fd with cardNumber := n } =
      (converterFormData fd).map
        (fun d => { d with dadosCartao := { d.dadosCartao with numero := n } }) := by
  unfold converterFormData
  cases fd.income with
  | none => rfl
  | some i =>
    cases fd.currentLimit with
    | none => rfl
    | some l => rfl

theorem converterFormData_campos (fd : FormData) (d : Convertido)
    (h : converterFormData fd = Except.ok d) :
    d.cpf = fd.cpf ∧ d.dadosCartao.numero = fd.cardNumber := by
  unfold converterFormData at h
  cases hi : fd.income with
  | none => simp [hi] at h
  | some i =>
    cases hl : fd.currentLimit with
    | none => simp [hi, hl] at h
    | some l =>
      simp only [hi, hl, Except.ok.injEq] at h
      subst h
      exact ⟨rfl, rfl⟩

theorem tratarErro_submissoes (bd : Banco) (corpo : Corpo) (e : Erro) :
    (tratarErro bd corpo e).1 = Resposta.erroInterno e ∧
    (tratarErro bd corpo e).2.submissoes = bd.submissoes := by
  refine ⟨rfl, ?_⟩
  unfold tratarErro salvarEvento
  simp only
  split_ifs <;> rfl

theorem lista11 {α : Type} (l : List α) (h : l.length = 11) :
    ∃ a1 a2 a3 a4 a5 a6 a7 a8 a9 a10 a11, l = [a1, a2, a3, a4, a5, a6, a7, a8, a9, a10, a11] := by
  rcases l with _ | ⟨a1, _ | ⟨a2, _ | ⟨a3, _ | ⟨a4, _ | ⟨a5, _ | ⟨a6, _ | ⟨a7, _ | ⟨a8, _ | ⟨a9,
    _ | ⟨a10, _ | ⟨a11, _ | ⟨a12, l⟩⟩⟩⟩⟩⟩⟩⟩⟩⟩⟩⟩ <;> simp at h
  exact ⟨a1, a2, a3, a4, a5, a6, a7, a8, a9, a10, a11, rfl⟩

theorem restoDe_eq (soma : Nat) : restoDe soma = verificadorSpec soma := by
  unfold restoDe verificadorSpec
  have h : soma * 10 % 11 < 11 := Nat.mod_lt _ (by decide)
  rw [Nat.mul_comm 10 soma]
  by_cases h10 : soma * 10 % 11 = 10
  · rw [if_pos (Or.inl h10), if_pos h10]
  · have : ¬ (soma * 10 % 11 = 10 ∨ soma * 10 % 11 = 11) := by omega
    rw [if_neg this, if_neg h10]

theorem somenteDigitos_ehDigito (s : String) : ∀ c ∈ (somenteDigitos s).data, ehDigito c = true := by
  intro c hc
  exact (List.mem_filter.mp hc).2

theorem somaPonderada_9 (a1 a2 a3 a4 a5 a6 a7 a8 a9 a10 a11 : Char) :
    somaPonderada ⟨[a1, a2, a3, a4, a5, a6, a7, a8, a9, a10, a11]⟩ 9 11 =
      ∑ i in Finset.Icc 1 9, digitoSpec [a1, a2, a3, a4, a5, a6, a7, a8, a9, a10, a11] i * (11 - i) := by
  rw [show (∑ i in Finset.Icc 1 9,
        digitoSpec [a1, a2, a3, a4, a5, a6, a7, a8, a9, a10, a11] i * (11 - i)) =
      0 + valorDigito a1 * 10 + valorDigito a2 * 9 + valorDigito a3 * 8 + valorDigito a4 * 7 +
        valorDigito a5 * 6 + valorDigito a6 * 5 + valorDigito a7 * 4 + valorDigito a8 * 3 +
        valorDigito a9 * 2 from by simp [Finset.sum_Icc_succ_top, digitoSpec]]
  rfl

theorem somaPonderada_10 (a1 a2 a3 a4 a5 a6 a7 a8 a9 a10 a11 : Char) :
    somaPonderada ⟨[a1, a2, a3, a4, a5, a6, a7, a8, a9, a10, a11]⟩ 10 12 =
      ∑ i in Finset.Icc 1 10, digitoSpec [a1, a2, a3, a4, a5, a6, a7, a8, a9, a10, a11] i * (12 - i) := by
  rw [show (∑ i in Finset.Icc 1 10,
        digitoSpec [a1, a2, a3, a4, a5, a6, a7, a8, a9, a10, a11] i * (12 - i)) =
      0 + valorDigito a1 * 11 + valorDigito a2 * 10 + valorDigito a3 * 9 + valorDigito a4 * 8 +
        valorDigito a5 * 7 + valorDigito a6 * 6 + valorDigito a7 * 5 + valorDigito a8 * 4 +
        valorDigito a9 * 3 + valorDigito a10 * 2 from by simp [Finset.sum_Icc_succ_top, digitoSpec]]
  rfl

theorem todosIguais_iff (a1 a2 a3 a4 a5 a6 a7 a8 a9 a10 a11 : Char) (h : ehDigito a1 = true) :
    todosIguais ⟨[a1, a2, a3, a4, a5, a6, a7, a8, a9, a10, a11]⟩ = true ↔
      ∀ x ∈ [a1, a2, a3, a4, a5, a6, a7, a8, a9, a10, a11],
        x = [a1, a2, a3, a4, a5, a6, a7, a8, a9, a10, a11].getD 0 '0' := by
  simp [todosIguais, h]

theorem validarCPF_sse_spec_aux (s : String) : validarCPF s = true ↔ cpfValidoSpec s := by
  by_cases hlen : (somenteDigitos s).data.length = 11
  · obtain ⟨a1, a2, a3, a4, a5, a6, a7, a8, a9, a10, a11, hl⟩ := lista11 _ hlen
    have hd1 : ehDigito a1 = true := somenteDigitos_ehDigito s a1 (by rw [hl]; simp)
    have hs : somenteDigitos s = ⟨[a1, a2, a3, a4, a5, a6, a7, a8, a9, a10, a11]⟩ := by
      rw [← hl]
    have hti := todosIguais_iff a1 a2 a3 a4 a5 a6 a7 a8 a9 a10 a11 hd1
    have h9 : parseIntDigito (substring ⟨[a1, a2, a3, a4, a5, a6, a7, a8, a9, a10, a11]⟩ 9 10) =
        digitoSpec [a1, a2, a3, a4, a5, a6, a7, a8, a9, a10, a11] 10 := rfl
    have h10 : parseIntDigito (substring ⟨[a1, a2, a3, a4, a5, a6, a7, a8, a9, a10, a11]⟩ 10 11) =
        digitoSpec [a1, a2, a3, a4, a5, a6, a7, a8, a9, a10, a11] 11 := rfl
    unfold validarCPF cpfValidoSpec
    simp only [hs, restoDe_eq, somaPonderada_9, somaPonderada_10, h9, h10]
    rw [if_neg (by simp)]
    by_cases hti' : todosIguais ⟨[a1, a2, a3, a4, a5, a6, a7, a8, a9, a10, a11]⟩ = true
    · rw [if_pos hti']
      have := hti.mp hti'
      constructor
      · intro h; cases h
      · intro h; exact absurd this h.2.1
    · rw [if_neg hti']
      have hni := fun h => hti' (hti.mpr h)
      constructor
      · intro h
        refine ⟨rfl, hni, ?_, ?_⟩
        · by_contra hc
          rw [if_pos (fun e => hc e.symm)] at h
          cases h
        · by_contra hc
          by_cases hc1 : verificadorSpec (∑ i in Finset.Icc 1 9,
              digitoSpec [a1, a2, a3, a4, a5, a6, a7, a8, a9, a10, a11] i * (11 - i)) ≠
              digitoSpec [a1, a2, a3, a4, a5, a6, a7, a8, a9, a10, a11] 10
          · rw [if_pos hc1] at h; cases h
          · rw [if_neg hc1, if_pos (fun e => hc e.symm)] at h
            cases h
      · rintro ⟨-, -, e1, e2⟩
        rw [if_neg (by rw [e1]; simp), if_neg (by rw [e2]; simp)]
  · have : validarCPF s = false := by
      simp only [validarCPF]
      rw [if_pos hlen]
    rw [this]
    constructor
    · intro h; cases h
    · intro h; exact absurd h.1 hlen

theorem foldl_passoLuhn (l : List Char) : ∀ (k acc : Nat),
    (l.foldl passoLuhn (acc, decide (k % 2 = 0))).1 =
      acc + ((l.enumFrom k).map (fun p => parcelaLuhnSpec p.1 (valorDigito p.2))).sum := by
  induction l with
  | nil => intro k acc; simp
  | cons c cs ih =>
    intro k acc
    simp only [List.foldl_cons, List.enumFrom_cons, List.map_cons, List.sum_cons]
    have hstep : passoLuhn (acc, decide (k % 2 = 0)) c =
        (acc + parcelaLuhnSpec k (valorDigito c), decide ((k + 1) % 2 = 0)) := by
      unfold passoLuhn parcelaLuhnSpec valorDigito
      rcases Nat.mod_two_eq_zero_or_one k with h | h
      · have h1 : (k + 1) % 2 = 1 := by omega
        simp [h, h1, Nat.mul_comm]
      · have h1 : (k + 1) % 2 = 0 := by omega
        simp [h, h1]
    rw [hstep, ih (k + 1), Nat.add_assoc]

theorem validarCartao_sse_spec_aux (s : String) : validarCartao s = true ↔ cartaoValidoSpec s := by
  unfold validarCartao cartaoValidoSpec somaLuhnSpec
  by_cases h : (somenteDigitos s).data.length < 13 ∨ (somenteDigitos s).data.length > 19
  · simp only [h, if_true]
    constructor
    · intro h'; cases h'
    · rintro ⟨h1, h2, -⟩; omega
  · simp only [h, if_false]
    have := foldl_passoLuhn (somenteDigitos s).data.reverse 1 0
    simp only [show decide (1 % 2 = 0) = false from rfl, Nat.zero_add] at this
    rw [this]
    constructor
    · intro h'
      refine ⟨by omega, by omega, ?_⟩
      simpa using h'
    · rintro ⟨-, -, h3⟩
      simpa using h3

theorem verificarCPF_preserva_verificado (r : FormSubmission) (agora : Nat) (d m : Option String)
    (hv : r.verificacao.verified = true) (hm : r.verificacao.method = "two_step") :
    (verificarCPF r agora d m).2.verificacao.verified = true ∧
    (verificarCPF r agora d m).2.verificacao.method = "two_step" := by
  unfold verificarCPF
  by_cases h1 : r.dadosPessoais.dataNascimento = d
  · by_cases h2 : truthy m = true
    · by_cases h3 : r.dadosPessoais.nomeMae = m
      · simp [h1, h2, h3]
      · simp [h1, h2, h3, hv, hm]
    · simp [h1, h2, hv, hm]
  · simp [h1, hv, hm]

theorem verificarCPF_verificado_metodo (r : FormSubmission) (agora : Nat) (d m : Option String)
    (hinv : r.verificacao.verified = true → r.verificacao.method = "two_step") :
    (verificarCPF r agora d m).2.verificacao.verified = true →
      (verificarCPF r agora d m).2.verificacao.method = "two_step" := by
  unfold verificarCPF
  by_cases h1 : r.dadosPessoais.dataNascimento = d
  · by_cases h2 : truthy m = true
    · by_cases h3 : r.dadosPessoais.nomeMae = m
      · simp [h1, h2, h3]
      · simpa [h1, h2, h3] using hinv
    · simpa [h1, h2] using hinv
  · simpa [h1] using hinv

theorem alcancavel_invariante (r0 r : FormSubmission) (h0 : r0.verificacao.verified = false)
    (hr : Alcancavel r0 r) : r.verificacao.verified = true → r.verificacao.method = "two_step" := by
  induction hr with
  | inicio => intro h; rw [h0] at h; cases h
  | passo r agora d m _ ih => exact verificarCPF_verificado_metodo r agora d m ih

/-! ## Checksum validators -/

/-- C1: for every string, `validarCPF` returns true if and only if the
digit-stripped text has exactly 11 digits, not all identical, whose tenth and
eleventh digits equal the two check digits `(10 * weighted sum) mod 11` (10
coerced to 0) with weights `11 - i` over the first nine and `12 - i` over the
first ten digits; in every other case it returns false. -/
theorem validarCPF_sse_spec (s : String) :
    (validarCPF s = true ↔ cpfValidoSpec s) ∧ (validarCPF s = false ↔ ¬ cpfValidoSpec s) := by
  have h := validarCPF_sse_spec_aux s
  refine ⟨h, ?_⟩
  rw [← h]
  cases validarCPF s <;> simp

/-- C1 (witness): the reference number "52998224725" is accepted, also in its
punctuated form; "123" and "11111111111" are rejected. -/
theorem validarCPF_exemplos :
    validarCPF "52998224725" = true ∧ validarCPF "529.982.247-25" = true ∧
    validarCPF "123" = false ∧ validarCPF "11111111111" = false ∧
    validarCPF "52998224726" = false := by
  decide

/-- C2: for every string, `validarCartao` returns true if and only if the
digit-stripped text has between 13 and 19 digits and its Luhn sum (digits at
odd positions from the right unchanged, digits at even positions doubled,
minus 9 above 9) is divisible by 10; in every other case it returns false. -/
theorem validarCartao_sse_spec (s : String) :
    (validarCartao s = true ↔ cartaoValidoSpec s) ∧
    (validarCartao s = false ↔ ¬ cartaoValidoSpec s) := by
  have h := validarCartao_sse_spec_aux s
  refine ⟨h, ?_⟩
  rw [← h]
  cases validarCartao s <;> simp

/-- C2 (witness): "4532015112830366" is accepted and "4532015112830367" is
rejected; a 12-digit text is rejected whatever its Luhn sum. -/
theorem validarCartao_exemplos :
    validarCartao "4532015112830366" = true ∧ validarCartao "4532 0151 1283 0366" = true ∧
    validarCartao "4532015112830367" = false ∧ validarCartao "000000000000" = false := by
  decide

/-- C3: a string whose digit-stripped form is one digit repeated 11 times is
rejected by `validarCPF`, whatever separators are interleaved. -/
theorem validarCPF_rejeita_digitos_iguais (s : String) (c : Char) (hc : ehDigito c = true)
    (h : (somenteDigitos s).data = List.replicate 11 c) : validarCPF s = false := by
  have hlen : (somenteDigitos s).data.length = 11 := by rw [h]; simp
  have hs : somenteDigitos s = ⟨List.replicate 11 c⟩ := by rw [← h]
  simp only [validarCPF]
  rw [if_neg (by simp [hlen])]
  rw [if_pos]
  rw [hs]
  simp [todosIguais, List.replicate, hc]

/-- C3 (witness): "111.111.111-11" strips to eleven times the digit 1 and is
rejected. -/
theorem validarCPF_rejeita_digitos_iguais_exemplo :
    ehDigito '1' = true ∧ (somenteDigitos "111.111.111-11").data = List.replicate 11 '1' ∧
    validarCPF "111.111.111-11" = false :=
  ⟨by decide, by decide,
    validarCPF_rejeita_digitos_iguais "111.111.111-11" '1' (by decide) (by decide)⟩

/-! ## Two-step verification: the transitions -/

/-- C4: `verificarCPF` returns true exactly when the submitted birth date is
identical to the stored one, the submitted mother's name is non-empty and it
is identical to the stored one. In that case `verified` is true, `method` is
`'two_step'`, `attempts` is unchanged and both steps are marked verified; in
every other case `verified` and `method` are left as they were. -/
theorem verificarCPF_verdadeiro_sse (r : FormSubmission) (agora : Nat) (d m : Option String) :
    ((verificarCPF r agora d m).1 = Retorno.verdadeiro ↔
      (r.dadosPessoais.dataNascimento = d ∧ truthy m = true ∧ r.dadosPessoais.nomeMae = m)) ∧
    ((verificarCPF r agora d m).1 = Retorno.verdadeiro →
      (verificarCPF r agora d m).2.verificacao.verified = true ∧
      (verificarCPF r agora d m).2.verificacao.method = "two_step" ∧
      (verificarCPF r agora d m).2.verificacao.attempts = r.verificacao.attempts ∧
      (verificarCPF r agora d m).2.verificacao.steps.dataNascimento.verified = some true ∧
      (verificarCPF r agora d m).2.verificacao.steps.nomeMae.verified = some true) ∧
    ((verificarCPF r agora d m).1 ≠ Retorno.verdadeiro →
      (verificarCPF r agora d m).2.verificacao.verified = r.verificacao.verified ∧
      (verificarCPF r agora d m).2.verificacao.method = r.verificacao.method) := by
  unfold verificarCPF
  by_cases h1 : r.dadosPessoais.dataNascimento = d
  · by_cases h2 : truthy m = true
    · by_cases h3 : r.dadosPessoais.nomeMae = m
      · simp [h1, h2, h3]
      · simp [h1, h2, h3]
    · simp [h1, h2]
  · simp [h1]

/-- C4 (witness): the comparison of the mother's name is case-sensitive and
does not trim: "maria silva" and "Maria Silva " fail against the stored
"Maria Silva", which itself succeeds. -/
theorem verificarCPF_nome_exato_exemplo :
    (verificarCPF registroMaria 1700000000001 (some "1990-01-31") (some "Maria Silva")).1
      = Retorno.verdadeiro ∧
    (verificarCPF registroMaria 1700000000001 (some "1990-01-31") (some "maria silva")).1
      = Retorno.falso ∧
    (verificarCPF registroMaria 1700000000001 (some "1990-01-31") (some "Maria Silva ")).1
      = Retorno.falso := by
  decide

/-- C5: when the submitted birth date differs from the stored one,
`verificarCPF` returns false, marks the birth-date step not verified, adds
exactly one to `attempts` and leaves `verified`, `method` and the
mother's-name step unchanged. -/
theorem verificarCPF_data_errada (r : FormSubmission) (agora : Nat) (d m : Option String)
    (h : r.dadosPessoais.dataNascimento ≠ d) :
    (verificarCPF r agora d m).1 = Retorno.falso ∧
    (verificarCPF r agora d m).2.verificacao.steps.dataNascimento.verified = some false ∧
    (verificarCPF r agora d m).2.verificacao.attempts = r.verificacao.attempts + 1 ∧
    (verificarCPF r agora d m).2.verificacao.verified = r.verificacao.verified ∧
    (verificarCPF r agora d m).2.verificacao.method = r.verificacao.method ∧
    (verificarCPF r agora d m).2.verificacao.steps.nomeMae = r.verificacao.steps.nomeMae := by
  unfold verificarCPF
  simp [h]

/-- C5 (witness): a wrong birth date on the sample record. -/
theorem verificarCPF_data_errada_exemplo :
    registroMaria.dadosPessoais.dataNascimento ≠ some "1991-01-31" ∧
    ((verificarCPF registroMaria 1700000000001 (some "1991-01-31") none).1 = Retorno.falso ∧
    (verificarCPF registroMaria 1700000000001 (some "1991-01-31")
      none).2.verificacao.steps.dataNascimento.verified = some false ∧
    (verificarCPF registroMaria 1700000000001 (some "1991-01-31") none).2.verificacao.attempts
      = registroMaria.verificacao.attempts + 1 ∧
    (verificarCPF registroMaria 1700000000001 (some "1991-01-31") none).2.verificacao.verified
      = registroMaria.verificacao.verified ∧
    (verificarCPF registroMaria 1700000000001 (some "1991-01-31") none).2.verificacao.method
      = registroMaria.verificacao.method ∧
    (verificarCPF registroMaria 1700000000001 (some "1991-01-31") none).2.verificacao.steps.nomeMae
      = registroMaria.verificacao.steps.nomeMae) :=
  ⟨by decide,
    verificarCPF_data_errada registroMaria 1700000000001 (some "1991-01-31") none (by decide)⟩

/-- C6: when the submitted birth date equals the stored one and the mother's
name is absent or empty, `verificarCPF` returns `'partial'`, marks the
birth-date step verified and leaves `attempts`, `verified`, `method` and the
mother's-name step unchanged. -/
theorem verificarCPF_parcial (r : FormSubmission) (agora : Nat) (d m : Option String)
    (h : r.dadosPessoais.dataNascimento = d) (hm : m = none ∨ m = some "") :
    (verificarCPF r agora d m).1 = Retorno.parcial ∧
    (verificarCPF r agora d m).2.verificacao.steps.dataNascimento.verified = some true ∧
    (verificarCPF r agora d m).2.verificacao.attempts = r.verificacao.attempts ∧
    (verificarCPF r agora d m).2.verificacao.verified = r.verificacao.verified ∧
    (verificarCPF r agora d m).2.verificacao.method = r.verificacao.method ∧
    (verificarCPF r agora d m).2.verificacao.steps.nomeMae = r.verificacao.steps.nomeMae := by
  have ht : truthy m = false := by
    rcases hm with hm | hm <;> rw [hm] <;> rfl
  unfold verificarCPF
  simp [h, ht]

/-- C6 (witness): the right birth date with an empty mother's name on the
sample record. -/
theorem verificarCPF_parcial_exemplo :
    registroMaria.dadosPessoais.dataNascimento = some "1990-01-31" ∧
    ((verificarCPF registroMaria 1700000000001 (some "1990-01-31") (some "")).1
      = Retorno.parcial ∧
    (verificarCPF registroMaria 1700000000001 (some "1990-01-31")
      (some "")).2.verificacao.steps.dataNascimento.verified = some true ∧
    (verificarCPF registroMaria 1700000000001 (some "1990-01-31")
      (some "")).2.verificacao.attempts = registroMaria.verificacao.attempts ∧
    (verificarCPF registroMaria 1700000000001 (some "1990-01-31")
      (some "")).2.verificacao.verified = registroMaria.verificacao.verified ∧
    (verificarCPF registroMaria 1700000000001 (some "1990-01-31")
      (some "")).2.verificacao.method = registroMaria.verificacao.method ∧
    (verificarCPF registroMaria 1700000000001 (some "1990-01-31")
      (some "")).2.verificacao.steps.nomeMae = registroMaria.verificacao.steps.nomeMae) :=
  ⟨by decide,
    verificarCPF_parcial registroMaria 1700000000001 (some "1990-01-31") (some "")
      (by decide) (Or.inr rfl)⟩

/-- C7: when the submitted birth date equals the stored one and a non-empty
mother's name differs from the stored one, `verificarCPF` returns false, marks
the mother's-name step not verified, adds exactly one to `attempts`, leaves
`verified` unchanged and leaves the birth-date step marked verified. -/
theorem verificarCPF_nome_errado (r : FormSubmission) (agora : Nat) (d m : Option String)
    (h : r.dadosPessoais.dataNascimento = d) (hm : truthy m = true)
    (hd : r.dadosPessoais.nomeMae ≠ m) :
    (verificarCPF r agora d m).1 = Retorno.falso ∧
    (verificarCPF r agora d m).2.verificacao.steps.nomeMae.verified = some false ∧
    (verificarCPF r agora d m).2.verificacao.attempts = r.verificacao.attempts + 1 ∧
    (verificarCPF r agora d m).2.verificacao.verified = r.verificacao.verified ∧
    (verificarCPF r agora d m).2.verificacao.steps.dataNascimento.verified = some true := by
  unfold verificarCPF
  simp [h, hm, hd]

/-- C7 (witness): the right birth date with the wrong mother's name "Joana"
on the sample record. -/
theorem verificarCPF_nome_errado_exemplo :
    registroMaria.dadosPessoais.dataNascimento = some "1990-01-31" ∧
    truthy (some "Joana") = true ∧
    registroMaria.dadosPessoais.nomeMae ≠ some "Joana" ∧
    ((verificarCPF registroMaria 1700000000001 (some "1990-01-31") (some "Joana")).1
      = Retorno.falso ∧
    (verificarCPF registroMaria 1700000000001 (some "1990-01-31")
      (some "Joana")).2.verificacao.steps.nomeMae.verified = some false ∧
    (verificarCPF registroMaria 1700000000001 (some "1990-01-31")
      (some "Joana")).2.verificacao.attempts = registroMaria.verificacao.attempts + 1 ∧
    (verificarCPF registroMaria 1700000000001 (some "1990-01-31")
      (some "Joana")).2.verificacao.verified = registroMaria.verificacao.verified ∧
    (verificarCPF registroMaria 1700000000001 (some "1990-01-31")
      (some "Joana")).2.verificacao.steps.dataNascimento.verified = some true) :=
  ⟨by decide, by decide, by decide,
    verificarCPF_nome_errado registroMaria 1700000000001 (some "1990-01-31") (some "Joana")
      (by decide) (by decide) (by decide)⟩

/-- C8: `attempts` never decreases: after any call of `verificarCPF` it is the
old value plus one when the call returns false and the old value when it
returns `'partial'` or true. On the fresh sample record the sequence wrong
date, right date, right date with empty name, right date with wrong name,
right date with right name yields Failed, Partial, Partial, Failed, Succeeded
with `attempts` 1, 1, 1, 2, 2. -/
theorem verificarCPF_attempts :
    (∀ (r : FormSubmission) (agora : Nat) (d m : Option String),
      r.verificacao.attempts ≤ (verificarCPF r agora d m).2.verificacao.attempts ∧
      ((verificarCPF r agora d m).1 = Retorno.falso →
        (verificarCPF r agora d m).2.verificacao.attempts = r.verificacao.attempts + 1) ∧
      ((verificarCPF r agora d m).1 = Retorno.parcial ∨
          (verificarCPF r agora d m).1 = Retorno.verdadeiro →
        (verificarCPF r agora d m).2.verificacao.attempts = r.verificacao.attempts)) ∧
    executar registroMaria 1700000000001
        [(some "01/01/2000", none), (some "1990-01-31", none), (some "1990-01-31", some ""),
          (some "1990-01-31", some "Joana"), (some "1990-01-31", some "Maria Silva")]
      = [(Retorno.falso, 1), (Retorno.parcial, 1), (Retorno.parcial, 1), (Retorno.falso, 2),
          (Retorno.verdadeiro, 2)] := by
  refine ⟨?_, by decide⟩
  intro r agora d m
  unfold verificarCPF
  by_cases h1 : r.dadosPessoais.dataNascimento = d
  · by_cases h2 : truthy m = true
    · by_cases h3 : r.dadosPessoais.nomeMae = m
      · simp [h1, h2, h3]
      · simp [h1, h2, h3]
    · simp [h1, h2]
  · simp [h1]

/-- C9: in every state reachable from a record that is not yet verified, once
`verified` is true a further call of `verificarCPF` with any arguments leaves
`verified` true and `method` equal to `'two_step'`. -/
theorem verificarCPF_verificado_terminal (r0 r : FormSubmission) (h0 : r0.verificacao.verified = false)
    (hr : Alcancavel r0 r) (hv : r.verificacao.verified = true)
    (agora : Nat) (d m : Option String) :
    (verificarCPF r agora d m).2.verificacao.verified = true ∧
    (verificarCPF r agora d m).2.verificacao.method = "two_step" :=
  verificarCPF_preserva_verificado r agora d m hv (alcancavel_invariante r0 r h0 hr hv)

/-- C9 (witness): after the successful call on the sample record, a call with
a wrong birth date leaves the record verified by `'two_step'`. -/
theorem verificarCPF_verificado_terminal_exemplo :
    registroMaria.verificacao.verified = false ∧
    (verificarCPF registroMaria 1700000000001 (some "1990-01-31")
      (some "Maria Silva")).2.verificacao.verified = true ∧
    ((verificarCPF (verificarCPF registroMaria 1700000000001 (some "1990-01-31")
        (some "Maria Silva")).2 1700000000002 (some "1991-01-31") none).2.verificacao.verified
      = true ∧
    (verificarCPF (verificarCPF registroMaria 1700000000001 (some "1990-01-31")
        (some "Maria Silva")).2 1700000000002 (some "1991-01-31") none).2.verificacao.method
      = "two_step") :=
  ⟨by decide, by decide,
    verificarCPF_verificado_terminal registroMaria
      (verificarCPF registroMaria 1700000000001 (some "1990-01-31") (some "Maria Silva")).2
      (by decide)
      (Alcancavel.passo registroMaria 1700000000001 (some "1990-01-31") (some "Maria Silva")
        Alcancavel.inicio)
      (by decide) 1700000000002 (some "1991-01-31") none⟩

/-- C10: when the submitted birth date differs from the stored one,
`verificarCPF` returns neither true nor `'partial'`, leaves `verified`
unchanged and does not write the mother's-name step, whatever mother's name
is submitted. -/
theorem verificarCPF_passo2_so_apos_passo1 (r : FormSubmission) (agora : Nat) (d m : Option String)
    (h : r.dadosPessoais.dataNascimento ≠ d) :
    (verificarCPF r agora d m).1 ≠ Retorno.verdadeiro ∧
    (verificarCPF r agora d m).1 ≠ Retorno.parcial ∧
    (verificarCPF r agora d m).2.verificacao.verified = r.verificacao.verified ∧
    (verificarCPF r agora d m).2.verificacao.steps.nomeMae = r.verificacao.steps.nomeMae := by
  unfold verificarCPF
  simp [h]

/-- C10 (witness): a wrong birth date together with the stored mother's name
"Maria Silva" on the sample record. -/
theorem verificarCPF_passo2_so_apos_passo1_exemplo :
    registroMaria.dadosPessoais.dataNascimento ≠ some "1991-01-31" ∧
    registroMaria.dadosPessoais.nomeMae = some "Maria Silva" ∧
    ((verificarCPF registroMaria 1700000000001 (some "1991-01-31") (some "Maria Silva")).1
      ≠ Retorno.verdadeiro ∧
    (verificarCPF registroMaria 1700000000001 (some "1991-01-31") (some "Maria Silva")).1
      ≠ Retorno.parcial ∧
    (verificarCPF registroMaria 1700000000001 (some "1991-01-31")
      (some "Maria Silva")).2.verificacao.verified = registroMaria.verificacao.verified ∧
    (verificarCPF registroMaria 1700000000001 (some "1991-01-31")
      (some "Maria Silva")).2.verificacao.steps.nomeMae = registroMaria.verificacao.steps.nomeMae) :=
  ⟨by decide, by decide,
    verificarCPF_passo2_so_apos_passo1 registroMaria 1700000000001 (some "1991-01-31")
      (some "Maria Silva") (by decide)⟩

/-! ## Two-step verification: the birth-date comparison -/

/-- C11 (as amended): step 1 compares the submitted birth date with the stored
one by identity of the two strings, with no normalisation. `verificarCPF` marks
the birth-date step verified exactly when the submitted value is identical to
the stored one; every other value is a mismatch, answered `false` with
`attempts` increased by one. -/
theorem verificarCPF_compara_data_sem_normalizar (r : FormSubmission) (agora : Nat)
    (d m : Option String) :
    ((verificarCPF r agora d m).2.verificacao.steps.dataNascimento.verified = some true
        ↔ r.dadosPessoais.dataNascimento = d) ∧
    (r.dadosPessoais.dataNascimento ≠ d →
      (verificarCPF r agora d m).1 = Retorno.falso ∧
      (verificarCPF r agora d m).2.verificacao.attempts = r.verificacao.attempts + 1) := by
  unfold verificarCPF
  by_cases h : r.dadosPessoais.dataNascimento = d
  · simp [h]
    split_ifs <;> simp
  · simp [h]

/-- C11 (counterexample): the stored date "1990-01-31" and the submitted text
"31/01/1990" denote the same calendar date, 31 January 1990, yet `verificarCPF`
answers `false` and counts an attempt. -/
theorem verificarCPF_rejeita_mesma_data_outra_notacao :
    dataCanonicaSpec "1990-01-31" = dataCanonicaSpec "31/01/1990" ∧
    dataCanonicaSpec "1990-01-31" = some (1990, 1, 31) ∧
    (verificarCPF (registroExemplo (some "52998224725") none none (some "1990-01-31") (some "Maria"))
        1700000000001 (some "31/01/1990") none).1 = Retorno.falso ∧
    (verificarCPF (registroExemplo (some "52998224725") none none (some "1990-01-31") (some "Maria"))
        1700000000001 (some "31/01/1990") none).2.verificacao.attempts = 1 := by
  decide

/-! ## Masking of the national ID -/

/-- C12: `mascaraCPF` and `maskCPF` agree on every string; when the
digit-stripped input has exactly 11 digits the result is its first 3 digits,
five `*` and its last 2 digits, 10 characters in all; otherwise the result is
the digit-stripped input. -/
theorem mascaraCPF_formato (s : String) :
    maskCPF s = mascaraCPF s ∧
    ((somenteDigitos s).data.length = 11 →
      (mascaraCPF s).data = (somenteDigitos s).data.take 3 ++ List.replicate 5 '*' ++
          (somenteDigitos s).data.drop ((somenteDigitos s).data.length - 2) ∧
      (mascaraCPF s).data.length = 10) ∧
    ((somenteDigitos s).data.length ≠ 11 → mascaraCPF s = somenteDigitos s) := by
  refine ⟨?_, ?_, ?_⟩
  · unfold maskCPF mascaraCPF
    by_cases h : s = ""
    · subst h; decide
    · simp [h]
  · intro h
    unfold mascaraCPF
    simp only [h, ne_eq, not_true_eq_false, if_false, String.data_append, substring, substringFrom]
    constructor
    · rfl
    · simp [h]
  · intro h
    simp only [mascaraCPF]
    rw [if_pos h]

/-- C12 (witness): "52998224725" and its punctuated form are masked to
"529*****25"; the 3-digit input "123" is returned stripped and unmasked. -/
theorem mascaraCPF_exemplos :
    mascaraCPF "52998224725" = "529*****25" ∧ maskCPF "52998224725" = "529*****25" ∧
    mascaraCPF "529.982.247-25" = "529*****25" ∧ mascaraCPF "1-2-3" = "123" := by
  decide

/-- C13 (the code at the failing input): on a record whose CPF is stored with
punctuation, `sanitizarParaExibicao` cuts the raw string, not its digits: the
view shows "529*****47-25", four trailing digits, while `mascaraCPF` of the
same CPF is "529*****25". -/
theorem sanitizar_cpf_pontuado :
    (sanitizarParaExibicao
        (registroExemplo (some "529.982.247-25") none none none none)).cpf
      = some "529*****47-25" ∧
    mascaraCPF "529.982.247-25" = "529*****25" ∧
    (sanitizarParaExibicao (registroExemplo (some "123") none none none none)).cpf
      = some "123*****" ∧
    mascaraCPF "123" = "123" := by
  decide

/-! ## Masking of the card -/

/-- C14 (the code at the failing input): for the card "4532015112830366" the
pre-save hook does compute the last four digits "0366" on the in-memory
document, but `ultimosDigitos` is not a path of the schema, so `toObject()`
does not carry it: the sanitised view of the saved document renders the
number as "********", not "****0366"; and the view of the same record loaded
back from the database has no card number at all. -/
theorem sanitizar_nao_mostra_ultimosDigitos :
    (preSave (registroExemplo (some "52998224725") (some "4532015112830366") (some "123")
        none none)).dadosCartao.ultimosDigitos = some "0366" ∧
    (sanitizarParaExibicao (preSave (registroExemplo (some "52998224725")
        (some "4532015112830366") (some "123") none none))).dadosCartao.numero
      = some "********" ∧
    (sanitizarParaExibicao (carregar (persistido (preSave (registroExemplo (some "52998224725")
        (some "4532015112830366") (some "123") none none))))).dadosCartao.numero = none := by
  decide

/-- C15: two records that are equal except for `dadosCartao.numero` and
`dadosCartao.cvv`, each non-empty in both, have the same sanitised view, and
in that view the CVV is the placeholder "***". -/
theorem sanitizar_independe_de_numero_e_cvv (r1 r2 : FormSubmission)
    (h : r2 = { r1 with dadosCartao := { r1.dadosCartao with
                  numero := r2.dadosCartao.numero, cvv := r2.dadosCartao.cvv } })
    (hn1 : truthy r1.dadosCartao.numero = true) (hn2 : truthy r2.dadosCartao.numero = true)
    (hc1 : truthy r1.dadosCartao.cvv = true) (hc2 : truthy r2.dadosCartao.cvv = true) :
    sanitizarParaExibicao r1 = sanitizarParaExibicao r2 ∧
    (sanitizarParaExibicao r1).dadosCartao.cvv = some "***" ∧
    (sanitizarParaExibicao r2).dadosCartao.cvv = some "***" := by
  have e1 := sanitizar_cartao_de_truthy r1 hn1 hc1
  have e2 := sanitizar_cartao_de_truthy r2 hn2 hc2
  refine ⟨?_, by rw [e1], by rw [e2]⟩
  have hval : r2.dadosCartao.validade = r1.dadosCartao.validade := by rw [h]
  rw [sanitizar_fora_do_cartao r1, sanitizar_fora_do_cartao r2, e1, e2, hval]
  rw [h]

/-- C15 (witness): the records with cards "4532015112830366"/"123" and
"5500005555555559"/"987" satisfy the hypotheses and have equal views. -/
theorem sanitizar_independe_de_numero_e_cvv_exemplo :
    sanitizarParaExibicao
        (registroExemplo (some "52998224725") (some "4532015112830366") (some "123") none none)
      = sanitizarParaExibicao
        (registroExemplo (some "52998224725") (some "5500005555555559") (some "987") none none) ∧
    (sanitizarParaExibicao (registroExemplo (some "52998224725") (some "4532015112830366")
        (some "123") none none)).dadosCartao.cvv = some "***" ∧
    (sanitizarParaExibicao (registroExemplo (some "52998224725") (some "5500005555555559")
        (some "987") none none)).dadosCartao.cvv = some "***" :=
  sanitizar_independe_de_numero_e_cvv
    (registroExemplo (some "52998224725") (some "4532015112830366") (some "123") none none)
    (registroExemplo (some "52998224725") (some "5500005555555559") (some "987") none none)
    (by decide) (by decide) (by decide) (by decide) (by decide)

/-- The pre-save hook leaves `dadosCartao.numero` and `dadosCartao.cvv` as they
are, and the data written to the database is the same with or without the
hook: the full card number and the CVV are persisted. -/
theorem preSave_mantem_numero_e_cvv (r : FormSubmission) :
    (persistido (preSave r)).dadosCartao.numero = r.dadosCartao.numero ∧
    (persistido (preSave r)).dadosCartao.cvv = r.dadosCartao.cvv ∧
    persistido (preSave r) = persistido r := by
  refine ⟨?_, ?_, persistido_preSave r⟩
  · rw [persistido_preSave]; rfl
  · rw [persistido_preSave]; rfl

/-- C16 (the code at the failing input): two records that differ only in the
digits of the card number before the last four and in the CVV are persisted
as different records; the first keeps its full number and its CVV. -/
theorem preSave_persiste_numero_completo :
    persistido (preSave (registroExemplo (some "52998224725") (some "4532015112830366")
        (some "123") none none))
      ≠ persistido (preSave (registroExemplo (some "52998224725") (some "5500005555550366")
        (some "987") none none)) ∧
    (persistido (preSave (registroExemplo (some "52998224725") (some "4532015112830366")
        (some "123") none none))).dadosCartao.numero = some "4532015112830366" ∧
    (persistido (preSave (registroExemplo (some "52998224725") (some "4532015112830366")
        (some "123") none none))).dadosCartao.cvv = some "123" := by
  decide

/-! ## Masking: what holds for every record -/

theorem somenteDigitos_de_digitos (c : String) (h : c.data.all ehDigito = true) :
    somenteDigitos c = c := by
  unfold somenteDigitos
  have : c.data.filter ehDigito = c.data := by
    rw [List.filter_eq_self]
    intro a ha
    exact List.all_eq_true.mp h a ha
  rw [this]

/-- On a record whose CPF is stored as 11 bare digits, the sanitised view
shows exactly `mascaraCPF` of it. -/
theorem sanitizar_cpf_onze_digitos (r : FormSubmission) (c : String)
    (hr : r.cpf = some c) (hd : c.data.all ehDigito = true) (hl : c.data.length = 11) :
    (sanitizarParaExibicao r).cpf = some (mascaraCPF c) := by
  have hne : c ≠ "" := by
    intro e; rw [e] at hl; cases hl
  have hm : mascaraCPF c = mascararCpfBruto c := by
    simp only [mascaraCPF, somenteDigitos_de_digitos c hd]
    rw [if_neg (by simp [hl])]
    rfl
  rw [hm]
  unfold sanitizarParaExibicao toObject
  simp [hr, hne]

/-- The sample record, whose CPF is "52998224725", satisfies the hypotheses. -/
theorem sanitizar_cpf_onze_digitos_exemplo :
    (sanitizarParaExibicao registroMaria).cpf = some (mascaraCPF "52998224725") :=
  sanitizar_cpf_onze_digitos registroMaria "52998224725" (by decide) (by decide) (by decide)

/-- For every record with a non-empty card number, the pre-save hook computes
the trailing four digits of the stripped number, and the sanitised view of
the document after the hook renders the number as "********". -/
theorem preSave_ultimosDigitos (r : FormSubmission) (n : String)
    (hr : r.dadosCartao.numero = some n) (hn : n ≠ "") :
    (preSave r).dadosCartao.ultimosDigitos = some (sliceUltimos4 (somenteDigitos n)) ∧
    (sanitizarParaExibicao (preSave r)).dadosCartao.numero = some "********" := by
  obtain ⟨sid, ts, cpf, tp, v, dp, ⟨num, val, cvv, ud⟩, en, df, ua, ip, st, pg, cm⟩ := r
  simp only at hr
  subst hr
  rcases opcao_casos cpf with h1 | h1 | ⟨c, h1, h1'⟩ <;>
    rcases opcao_casos cvv with h2 | h2 | ⟨x, h2, h2'⟩ <;>
    subst h1 <;> subst h2 <;>
    simp [preSave, sanitizarParaExibicao, toObject, ouQuatroEstrelas, *]

/-- A card number with fewer than four digits, "12-3": the hook keeps the three
digits there are. -/
theorem preSave_ultimosDigitos_exemplo :
    (preSave (registroExemplo none (some "12-3") none none none)).dadosCartao.ultimosDigitos
      = some (sliceUltimos4 (somenteDigitos "12-3")) ∧
    (sanitizarParaExibicao (preSave (registroExemplo none (some "12-3") none none
      none))).dadosCartao.numero = some "********" :=
  preSave_ultimosDigitos (registroExemplo none (some "12-3") none none none) "12-3" rfl (by decide)

/-! ## The creation path -/

/-- C17 (as amended): `createSubmission` does not run `validarCPF`. For every
request, replacing the CPF by any other non-blank string leaves the response
unchanged (here: the response for CPF `c` equals the response for the valid
CPF "52998224725"), and whenever the request is answered 201 exactly one
record is stored, carrying the trimmed CPF as submitted. -/
theorem createSubmission_nao_consulta_validarCPF (bd : Banco) (sid ua : Option String) (ts : Option Nat) (fd : FormData)
    (ip : Option String) (agora m : Nat) (c : String) (hc : trim c ≠ "") :
    (createSubmission bd ⟨sid, some { fd with cpf := some c }, ua, ts⟩ ip agora m).1 =
      (createSubmission bd ⟨sid, some { fd with cpf := some "52998224725" }, ua, ts⟩ ip agora m).1 ∧
    ∀ p t, (createSubmission bd ⟨sid, some { fd with cpf := some c }, ua, ts⟩ ip agora m).1
        = Resposta.criado p t →
      ∃ r, (createSubmission bd ⟨sid, some { fd with cpf := some c }, ua, ts⟩ ip agora m).2.submissoes
          = bd.submissoes ++ [r] ∧ r.cpf = some (trim c) := by
  have hv : trim "52998224725" ≠ "" := by decide
  by_cases hs : truthy sid = true
  · cases hd : converterFormData fd with
    | error e =>
      have h1 : ∀ x, converterFormData { fd with cpf := x } = Except.error e := by
        intro x; rw [converterFormData_cpf, hd]; rfl
      simp [createSubmission, hs, h1, tratarErro]
    | ok d =>
      have h1 : ∀ x, converterFormData { fd with cpf := x } = Except.ok { d with cpf := x } := by
        intro x; rw [converterFormData_cpf, hd]; rfl
      rw [createSubmission_ok bd _ ip agora m _ _ rfl hs (h1 (some c)),
        createSubmission_ok bd _ ip agora m _ _ rfl hs (h1 (some "52998224725"))]
      have hval : validar (novoFormSubmission ⟨sid, some { fd with cpf := some c }, ua, ts⟩ ip
            { d with cpf := some c } agora) =
          validar (novoFormSubmission ⟨sid, some { fd with cpf := some "52998224725" }, ua, ts⟩ ip
            { d with cpf := some "52998224725" } agora) := by
        have hc1 : (trim c != "") = true := bne_iff_ne.mpr hc
        have hv1 : (trim "52998224725" != "") = true := bne_iff_ne.mpr hv
        simp only [validar, novoFormSubmission, truthy, Option.map_some', hc1, hv1]
      rw [hval]
      split_ifs with hvv
      · refine ⟨?_, ?_⟩
        · simp [novoFormSubmission, gerarProtocolo]
        · intro p t _
          refine ⟨_, rfl, ?_⟩
          simp [persistido, toObject, (preSave_campos _).2.2.1, gerarProtocolo, novoFormSubmission]
      · simp [tratarErro]
  · simp [createSubmission, hs]

/-- C17 (witness): the amended statement at the CPF "11111111111", which
`validarCPF` rejects. -/
theorem createSubmission_nao_consulta_validarCPF_exemplo :
    trim "11111111111" ≠ "" ∧ validarCPF "11111111111" = false ∧
    ((createSubmission bancoVazio
        ⟨some "s1", some { formularioExemplo none none with cpf := some "11111111111" }, none, none⟩
        none 1700000123456 0).1 =
      (createSubmission bancoVazio
        ⟨some "s1", some { formularioExemplo none none with cpf := some "52998224725" }, none, none⟩
        none 1700000123456 0).1 ∧
    ∀ p t, (createSubmission bancoVazio
        ⟨some "s1", some { formularioExemplo none none with cpf := some "11111111111" }, none, none⟩
        none 1700000123456 0).1 = Resposta.criado p t →
      ∃ r, (createSubmission bancoVazio
          ⟨some "s1", some { formularioExemplo none none with cpf := some "11111111111" }, none, none⟩
          none 1700000123456 0).2.submissoes = bancoVazio.submissoes ++ [r] ∧
        r.cpf = some (trim "11111111111")) :=
  ⟨by decide, by decide,
    createSubmission_nao_consulta_validarCPF bancoVazio (some "s1") none none
      (formularioExemplo none none) none 1700000123456 0 "11111111111" (by decide)⟩

/-- C17 (counterexample): the CPFs "11111111111" and "123" are rejected by
`validarCPF`, yet a request carrying either is answered 201 and its record is
stored with that CPF. -/
theorem createSubmission_aceita_cpf_invalido :
    validarCPF "11111111111" = false ∧ validarCPF "123" = false ∧
    (createSubmission bancoVazio (corpoExemplo (some "s1") (some "11111111111") none)
        none 1700000123456 0).1 = Resposta.criado (some "1234561000") 1700000123456 ∧
    (createSubmission bancoVazio (corpoExemplo (some "s1") (some "11111111111") none)
        none 1700000123456 0).2.submissoes.map (fun r => r.cpf) = [some "11111111111"] ∧
    (createSubmission bancoVazio (corpoExemplo (some "s1") (some "123") none)
        none 1700000123456 0).1 = Resposta.criado (some "1234561000") 1700000123456 ∧
    (createSubmission bancoVazio (corpoExemplo (some "s1") (some "123") none)
        none 1700000123456 0).2.submissoes.map (fun r => r.cpf) = [some "123"] := by
  decide

/-- C18 (as amended): `createSubmission` does not run `validarCartao`. For
every request, replacing the card number by any other value (or by none)
leaves the response unchanged, and whenever the request is answered 201
exactly one record is stored, carrying the trimmed card number as submitted. -/
theorem createSubmission_nao_consulta_validarCartao (bd : Banco) (sid ua : Option String) (ts : Option Nat) (fd : FormData)
    (ip : Option String) (agora m : Nat) (n : Option String) :
    (createSubmission bd ⟨sid, some { fd with cardNumber := n }, ua, ts⟩ ip agora m).1 =
      (createSubmission bd ⟨sid, some fd, ua, ts⟩ ip agora m).1 ∧
    ∀ p t, (createSubmission bd ⟨sid, some { fd with cardNumber := n }, ua, ts⟩ ip agora m).1
        = Resposta.criado p t →
      ∃ r, (createSubmission bd ⟨sid, some { fd with cardNumber := n }, ua, ts⟩ ip agora m).2.submissoes
          = bd.submissoes ++ [r] ∧ r.dadosCartao.numero = n.map trim := by
  by_cases hs : truthy sid = true
  · cases hd : converterFormData fd with
    | error e =>
      have h1 : converterFormData { fd with cardNumber := n } = Except.error e := by
        rw [converterFormData_cardNumber, hd]; rfl
      simp [createSubmission, hs, h1, hd, tratarErro]
    | ok d =>
      have h1 : converterFormData { fd with cardNumber := n } =
          Except.ok { d with dadosCartao := { d.dadosCartao with numero := n } } := by
        rw [converterFormData_cardNumber, hd]; rfl
      rw [createSubmission_ok bd _ ip agora m _ _ rfl hs h1,
        createSubmission_ok bd _ ip agora m _ _ rfl hs hd]
      have hval : validar (novoFormSubmission ⟨sid, some { fd with cardNumber := n }, ua, ts⟩ ip
            { d with dadosCartao := { d.dadosCartao with numero := n } } agora) =
          validar (novoFormSubmission ⟨sid, some fd, ua, ts⟩ ip d agora) := by
        simp only [validar, novoFormSubmission]
      rw [hval]
      split_ifs with hvv
      · refine ⟨?_, ?_⟩
        · simp [novoFormSubmission, gerarProtocolo]
        · intro p t _
          refine ⟨_, rfl, ?_⟩
          simp [persistido, toObject, (preSave_campos _).2.2.2.2.2.1, gerarProtocolo,
            novoFormSubmission]
      · simp [tratarErro]
  · simp [createSubmission, hs]

/-- C18 (counterexample): the card number "4532015112830367" is rejected by
`validarCartao`, yet a request carrying it is answered 201 and its record is
stored with that full number. -/
theorem createSubmission_aceita_cartao_invalido :
    validarCartao "4532015112830367" = false ∧
    (createSubmission bancoVazio
        (corpoExemplo (some "s1") (some "52998224725") (some "4532015112830367"))
        none 1700000123456 0).1 = Resposta.criado (some "1234561000") 1700000123456 ∧
    (createSubmission bancoVazio
        (corpoExemplo (some "s1") (some "52998224725") (some "4532015112830367"))
        none 1700000123456 0).2.submissoes.map (fun r => r.dadosCartao.numero)
      = [some "4532015112830367"] := by
  decide

/-- The required inputs of `createSubmission`, as the handler treats them.
The guard of line 15 answers 400 and leaves the database unchanged when
`sessionId` is missing or empty, or `formData` is missing. It does not look at
`formData.cpf`: when `sessionId` and `formData` are present and the CPF is
missing or empty, the request reaches the `catch` block, which answers 500;
no submission is stored. A 201 answer implies a non-empty `sessionId` and a
non-empty CPF. -/
theorem createSubmission_entradas_obrigatorias (bd : Banco) (corpo : Corpo) (ip : Option String) (agora m : Nat) :
    ((truthy corpo.sessionId = false ∨ corpo.formData = none) →
      createSubmission bd corpo ip agora m = (Resposta.dadosIncompletos, bd)) ∧
    (∀ fd, corpo.formData = some fd → truthy corpo.sessionId = true → truthy fd.cpf = false →
      (∃ e, (createSubmission bd corpo ip agora m).1 = Resposta.erroInterno e) ∧
      (createSubmission bd corpo ip agora m).2.submissoes = bd.submissoes) ∧
    (∀ p t, (createSubmission bd corpo ip agora m).1 = Resposta.criado p t →
      truthy corpo.sessionId = true ∧ ∃ fd, corpo.formData = some fd ∧ truthy fd.cpf = true) := by
  refine ⟨?_, ?_, ?_⟩
  · rintro (h | h)
    · unfold createSubmission
      cases corpo.formData with
      | none => rfl
      | some fd => simp [h]
    · unfold createSubmission
      rw [h]
  · intro fd hfd hs hcpf
    cases hd : converterFormData fd with
    | error e =>
      have : createSubmission bd corpo ip agora m = tratarErro bd corpo e := by
        unfold createSubmission
        simp [hfd, hs, hd]
      rw [this]
      exact ⟨⟨e, (tratarErro_submissoes bd corpo e).1⟩, (tratarErro_submissoes bd corpo e).2⟩
    | ok d =>
      rw [createSubmission_ok bd corpo ip agora m fd d hfd hs hd]
      have hcampo := (converterFormData_campos fd d hd).1
      have hv : validar (novoFormSubmission corpo ip d agora) = false := by
        have : truthy (d.cpf.map trim) = false := by
          rw [hcampo]
          rcases opcao_casos fd.cpf with h | h | ⟨s, h, hs'⟩
          · rw [h]; rfl
          · rw [h]; decide
          · rw [h] at hcpf; simp [truthy, hs'] at hcpf
        simp [validar, novoFormSubmission, this]
      simp only [hv, Bool.false_eq_true, if_false]
      exact ⟨⟨_, (tratarErro_submissoes bd corpo _).1⟩, (tratarErro_submissoes bd corpo _).2⟩
  · intro p t h
    by_cases hs : truthy corpo.sessionId = true
    · refine ⟨hs, ?_⟩
      cases hfd : corpo.formData with
      | none =>
        unfold createSubmission at h
        simp [hfd] at h
      | some fd =>
        refine ⟨fd, rfl, ?_⟩
        by_contra hcpf
        have hcpf' : truthy fd.cpf = false := by simpa using hcpf
        cases hd : converterFormData fd with
        | error e =>
          unfold createSubmission at h
          simp [hfd, hs, hd, tratarErro] at h
        | ok d =>
          rw [createSubmission_ok bd corpo ip agora m fd d hfd hs hd] at h
          have hcampo := (converterFormData_campos fd d hd).1
          have hv : validar (novoFormSubmission corpo ip d agora) = false := by
            have : truthy (d.cpf.map trim) = false := by
              rw [hcampo]
              rcases opcao_casos fd.cpf with h | h | ⟨s, h, hs'⟩
              · rw [h]; rfl
              · rw [h]; decide
              · rw [h] at hcpf'; simp [truthy, hs'] at hcpf'
            simp [validar, novoFormSubmission, this]
          simp [hv, tratarErro] at h
    · exfalso
      have hs' : truthy corpo.sessionId = false := by simpa using hs
      unfold createSubmission at h
      cases hfd : corpo.formData with
      | none => simp [hfd] at h
      | some fd => simp [hfd, hs'] at h

/-- C19 (the code at the failing input): a request with the session id "s1"
and a complete form that carries no CPF, or the empty CPF, is answered 500
(the schema's validation error, caught by the handler's `catch` block), not
the 400 of the claim; no submission is stored. The handler's own guard answers
400 when the session id is the missing input, and the route
`POST /api/submissions` refuses a body without CPF with its 400. -/
theorem createSubmission_sem_cpf_erro_interno :
    (createSubmission bancoVazio (corpoExemplo (some "s1") none none)
        none 1700000123456 0).1 = Resposta.erroInterno Erro.validationError ∧
    (createSubmission bancoVazio (corpoExemplo (some "s1") (some "") none)
        none 1700000123456 0).1 = Resposta.erroInterno Erro.validationError ∧
    (createSubmission bancoVazio (corpoExemplo (some "s1") none none)
        none 1700000123456 0).1 ≠ Resposta.dadosIncompletos ∧
    (createSubmission bancoVazio (corpoExemplo (some "s1") none none)
        none 1700000123456 0).2.submissoes = [] ∧
    (createSubmission bancoVazio (corpoExemplo (some "s1") (some "") none)
        none 1700000123456 0).2.submissoes = [] ∧
    createSubmission bancoVazio (corpoExemplo none (some "52998224725") none)
        none 1700000123456 0 = (Resposta.dadosIncompletos, bancoVazio) ∧
    postSubmissions [] { cpf := none, cardNumber := none, cardCvv := none, outros := [] } 0
      = (false, []) := by
  decide

/-- C20: every document built by the constructor call of `createSubmission`
is Unverified with status `'novo'`, whatever the request; and every record
that `createSubmission` adds to the database is in that state. -/
theorem registro_novo_nao_verificado (corpo : Corpo) (ip : Option String) (d : Convertido) (agora : Nat) :
    NaoVerificado (novoFormSubmission corpo ip d agora) ∧
    ∀ (bd : Banco) (m : Nat) (r : FormSubmission),
      r ∈ (createSubmission bd corpo ip agora m).2.submissoes → r ∈ bd.submissoes ∨ NaoVerificado r := by
  have hnovo : ∀ (c : Corpo) (x : Convertido), NaoVerificado (novoFormSubmission c ip x agora) := by
    intro c x
    simp [NaoVerificado, novoFormSubmission, verificacaoPadrao]
  refine ⟨hnovo corpo d, ?_⟩
  intro bd m r hr
  cases hfd : corpo.formData with
  | none =>
    left
    unfold createSubmission at hr
    simpa [hfd] using hr
  | some fd =>
    by_cases hs : truthy corpo.sessionId = true
    · cases hd : converterFormData fd with
      | error e =>
        left
        have : createSubmission bd corpo ip agora m = tratarErro bd corpo e := by
          unfold createSubmission
          simp [hfd, hs, hd]
        rw [this, (tratarErro_submissoes bd corpo e).2] at hr
        exact hr
      | ok x =>
        rw [createSubmission_ok bd corpo ip agora m fd x hfd hs hd] at hr
        split_ifs at hr with hv
        · simp only [List.mem_append, List.mem_singleton] at hr
          rcases hr with hr | hr
          · exact Or.inl hr
          · right
            rw [hr, persistido_preSave]
            have := hnovo corpo x
            simpa [NaoVerificado, persistido, toObject, gerarProtocolo] using this
        · left
          rw [(tratarErro_submissoes bd corpo _).2] at hr
          exact hr
    · left
      have hs' : truthy corpo.sessionId = false := by simpa using hs
      unfold createSubmission at hr
      simpa [hfd, hs'] using hr

/-- C20 (witness): the record stored for a concrete request is Unverified
with status `'novo'`. -/
theorem registro_novo_nao_verificado_exemplo :
    (createSubmission bancoVazio
        (corpoExemplo (some "s1") (some "52998224725") (some "4532015112830366"))
        none 1700000123456 0).2.submissoes.map
          (fun r => (r.verificacao.verified, r.verificacao.method, r.verificacao.attempts,
            r.verificacao.steps.dataNascimento.verified, r.verificacao.steps.nomeMae.verified,
            r.status))
      = [(false, "none", 0, none, none, "novo")] := by
  decide

/-! ## Digits as characters -/

theorem ehDigito_iff (c : Char) : ehDigito c = true ↔ 48 ≤ c.toNat ∧ c.toNat ≤ 57 := by
  unfold ehDigito Char.isDigit
  simp only [Bool.and_eq_true, decide_eq_true_eq, ge_iff_le]
  constructor
  · rintro ⟨h1, h2⟩
    exact ⟨h1, h2⟩
  · rintro ⟨h1, h2⟩
    exact ⟨h1, h2⟩

theorem digito_eq_digitChar (c : Char) (h : ehDigito c = true) :
    c = Nat.digitChar (c.toNat - 48) := by
  obtain ⟨h1, h2⟩ := (ehDigito_iff c).mp h
  have hc : Char.ofNat c.toNat = c := Char.ofNat_toNat c
  rw [← hc]
  generalize c.toNat = n at h1 h2 ⊢
  interval_cases n <;> decide

theorem digitChar_digito (d : Nat) (h : d ≤ 9) :
    ehDigito (Nat.digitChar d) = true ∧ (Nat.digitChar d).toNat - 48 = d ∧
    ehEspaco (Nat.digitChar d) = false := by
  interval_cases d <;> decide

theorem digito_valor_le (c : Char) (h : ehDigito c = true) : c.toNat - 48 ≤ 9 := by
  obtain ⟨h1, h2⟩ := (ehDigito_iff c).mp h
  omega

theorem digito_inj (c d : Char) (hc : ehDigito c = true) (hd : ehDigito d = true)
    (h : c.toNat - 48 = d.toNat - 48) : c = d := by
  rw [digito_eq_digitChar c hc, digito_eq_digitChar d hd, h]

/-! ## The CPF check digits -/

theorem restoDe_padrao (soma : Nat) :
    restoDe soma = verificadorPadrao soma ∧ (soma * 10) % 11 ≠ 11 ∧ restoDe soma ≤ 9 := by
  unfold restoDe verificadorPadrao
  simp only
  have key : soma * 10 % 11 = (soma % 11) * 10 % 11 := by
    rw [Nat.mul_mod]
  rw [key]
  have hr : soma % 11 < 11 := Nat.mod_lt _ (by decide)
  generalize soma % 11 = r at hr ⊢
  interval_cases r <;> decide

theorem validarCPF_decomposto (s : String) :
    validarCPF s = (decide ((somenteDigitos s).data.length = 11) &&
      !todosIguais (somenteDigitos s) && digitosVerificadoresOk (somenteDigitos s)) := by
  unfold validarCPF digitosVerificadoresOk
  by_cases h1 : (somenteDigitos s).data.length = 11
  · by_cases h2 : todosIguais (somenteDigitos s) = true
    · simp [h1, h2]
    · simp [h1, h2]
  · simp only
    rw [if_pos h1, show decide ((somenteDigitos s).data.length = 11) = false from
      decide_eq_false h1]
    rfl

/-- The first weighted sum reads only the first nine digits. -/
theorem somaPonderada_9_prefixo (a1 a2 a3 a4 a5 a6 a7 a8 a9 x y : Char) :
    somaPonderada ⟨[a1, a2, a3, a4, a5, a6, a7, a8, a9, x, y]⟩ 9 11 =
      somaPonderada ⟨[a1, a2, a3, a4, a5, a6, a7, a8, a9]⟩ 9 11 := rfl

/-- The second weighted sum reads only the first ten digits. -/
theorem somaPonderada_10_prefixo (a1 a2 a3 a4 a5 a6 a7 a8 a9 x y : Char) :
    somaPonderada ⟨[a1, a2, a3, a4, a5, a6, a7, a8, a9, x, y]⟩ 10 12 =
      somaPonderada ⟨[a1, a2, a3, a4, a5, a6, a7, a8, a9, x]⟩ 10 12 := rfl

theorem digitosVerificadoresOk_iff (a1 a2 a3 a4 a5 a6 a7 a8 a9 x y : Char) :
    digitosVerificadoresOk ⟨[a1, a2, a3, a4, a5, a6, a7, a8, a9, x, y]⟩ = true ↔
      x.toNat - 48 = restoDe (somaPonderada ⟨[a1, a2, a3, a4, a5, a6, a7, a8, a9]⟩ 9 11) ∧
      y.toNat - 48 = restoDe (somaPonderada ⟨[a1, a2, a3, a4, a5, a6, a7, a8, a9, x]⟩ 10 12) := by
  unfold digitosVerificadoresOk
  rw [somaPonderada_9_prefixo, somaPonderada_10_prefixo]
  have e1 : parseIntDigito (substring ⟨[a1, a2, a3, a4, a5, a6, a7, a8, a9, x, y]⟩ 9 10)
      = x.toNat - 48 := rfl
  have e2 : parseIntDigito (substring ⟨[a1, a2, a3, a4, a5, a6, a7, a8, a9, x, y]⟩ 10 11)
      = y.toNat - 48 := rfl
  rw [e1, e2]
  constructor
  · intro h
    by_cases h1 : restoDe (somaPonderada ⟨[a1, a2, a3, a4, a5, a6, a7, a8, a9]⟩ 9 11)
        ≠ x.toNat - 48
    · rw [if_pos h1] at h; cases h
    · rw [if_neg h1] at h
      by_cases h2 : restoDe (somaPonderada ⟨[a1, a2, a3, a4, a5, a6, a7, a8, a9, x]⟩ 10 12)
          ≠ y.toNat - 48
      · rw [if_pos h2] at h; cases h
      · exact ⟨(not_not.mp h1).symm, (not_not.mp h2).symm⟩
  · rintro ⟨h1, h2⟩
    rw [if_neg (not_not.mpr h1.symm), if_neg (not_not.mpr h2.symm)]

theorem par_unico (R1 : Nat) (R2 : Char → Nat) (h1 : R1 ≤ 9) (h2 : ∀ x, R2 x ≤ 9) :
    ∃! p : Char × Char, ehDigito p.1 = true ∧ ehDigito p.2 = true ∧
      (p.1.toNat - 48 = R1 ∧ p.2.toNat - 48 = R2 p.1) := by
  have hx := digitChar_digito R1 h1
  have hy := digitChar_digito (R2 (Nat.digitChar R1)) (h2 _)
  refine ⟨(Nat.digitChar R1, Nat.digitChar (R2 (Nat.digitChar R1))), ?_, ?_⟩
  · exact ⟨hx.1, hy.1, hx.2.1, hy.2.1⟩
  · rintro ⟨x, y⟩ ⟨dx, dy, ex, ey⟩
    simp only at dx dy ex ey
    have e1 : x = Nat.digitChar R1 := by rw [digito_eq_digitChar x dx, ex]
    subst e1
    have e2 : y = Nat.digitChar (R2 (Nat.digitChar R1)) := by rw [digito_eq_digitChar y dy, ey]
    rw [e2]

/-- C27: the check digit computed by `validarCPF`, `(soma * 10) % 11` with 10
coerced to 0, equals the standard rule (0 when `soma mod 11 < 2`, otherwise
`11 - soma mod 11`) for every weighted sum; `(soma * 10) % 11` is never 11;
and for every sequence of nine digits there is exactly one pair of digits
`(d10, d11)` with which the 11-digit string passes both check-digit
comparisons. -/
theorem validarCPF_digito_verificador_padrao :
    (∀ soma : Nat, restoDe soma = verificadorPadrao soma ∧ (soma * 10) % 11 ≠ 11) ∧
    (∀ a1 a2 a3 a4 a5 a6 a7 a8 a9 : Char,
      ∃! p : Char × Char, ehDigito p.1 = true ∧ ehDigito p.2 = true ∧
        digitosVerificadoresOk ⟨[a1, a2, a3, a4, a5, a6, a7, a8, a9, p.1, p.2]⟩ = true) ∧
    (∀ s : String, validarCPF s = (decide ((somenteDigitos s).data.length = 11) &&
      !todosIguais (somenteDigitos s) && digitosVerificadoresOk (somenteDigitos s))) := by
  refine ⟨fun soma => ⟨(restoDe_padrao soma).1, (restoDe_padrao soma).2.1⟩, ?_,
    validarCPF_decomposto⟩
  intro a1 a2 a3 a4 a5 a6 a7 a8 a9
  simp only [digitosVerificadoresOk_iff]
  exact par_unico _ (fun x => restoDe (somaPonderada ⟨[a1, a2, a3, a4, a5, a6, a7, a8, a9, x]⟩ 10 12))
    (restoDe_padrao _).2.2 (fun x => (restoDe_padrao _).2.2)

/-- C27 (witness): for the nine digits 529982247 the pair is (2, 5), and the
digit 6 in the last place fails. -/
theorem validarCPF_digito_verificador_exemplo :
    digitosVerificadoresOk "52998224725" = true ∧ digitosVerificadoresOk "52998224726" = false ∧
    restoDe 12 = 0 ∧ verificadorPadrao 12 = 0 ∧ restoDe 295 = 2 ∧ verificadorPadrao 295 = 2 :=
  ⟨by decide, by decide, by decide, by decide, by rfl, by rfl⟩

/-! ## Verification of records built by the creation path -/

theorem verificarCPF_dadosPessoais (r : FormSubmission) (agora : Nat) (d m : Option String) :
    (verificarCPF r agora d m).2.dadosPessoais = r.dadosPessoais := by
  unfold verificarCPF
  by_cases h1 : r.dadosPessoais.dataNascimento = d
  · by_cases h2 : truthy m = true
    · by_cases h3 : r.dadosPessoais.nomeMae = m
      · simp [h1, h2, h3]
      · simp [h1, h2, h3]
    · simp [h1, h2]
  · simp [h1]

theorem alcancavel_dadosPessoais (r0 r : FormSubmission) (h : Alcancavel r0 r) :
    r.dadosPessoais = r0.dadosPessoais := by
  induction h with
  | inicio => rfl
  | passo r agora d m _ ih => rw [verificarCPF_dadosPessoais, ih]

theorem verificarCPF_sem_segredos (r : FormSubmission) (agora : Nat) (d m : Option String)
    (hd : r.dadosPessoais.dataNascimento = none) (hm : r.dadosPessoais.nomeMae = none) :
    (verificarCPF r agora d m).1 ≠ Retorno.verdadeiro ∧
    (∀ s, d = some s → (verificarCPF r agora d m).1 = Retorno.falso ∧
      (verificarCPF r agora d m).2.verificacao.attempts = r.verificacao.attempts + 1) ∧
    (d = none → truthy m = true → (verificarCPF r agora d m).1 = Retorno.falso ∧
      (verificarCPF r agora d m).2.verificacao.attempts = r.verificacao.attempts + 1) := by
  unfold verificarCPF
  cases d with
  | some s => simp [hd]
  | none =>
    cases m with
    | none => simp [hd, truthy]
    | some x =>
      by_cases hx : x = ""
      · simp [hd, hm, truthy, hx]
      · simp [hd, hm, truthy, hx]

/-- C29: a record built by the creation path holds neither a birth date nor
a mother's name, so in every state reachable from it `verificarCPF` never
returns true: every string birth date is a mismatch (returns false, one more
attempt), and with an absent birth date every non-empty mother's name is a
mismatch (returns false, one more attempt). -/
theorem registro_criado_nunca_verificado (corpo : Corpo) (ip : Option String) (fd : FormData)
    (d : Convertido) (agora : Nat) (h : converterFormData fd = Except.ok d) :
    d.dadosPessoais = { nome := fd.nome, dataNascimento := none, nomeMae := none, genero := none } ∧
    (novoFormSubmission corpo ip d agora).dadosPessoais.dataNascimento = none ∧
    (novoFormSubmission corpo ip d agora).dadosPessoais.nomeMae = none ∧
    ∀ r, Alcancavel (novoFormSubmission corpo ip d agora) r →
      ∀ (t : Nat) (dn m : Option String),
        (verificarCPF r t dn m).1 ≠ Retorno.verdadeiro ∧
        (∀ s, dn = some s → (verificarCPF r t dn m).1 = Retorno.falso ∧
          (verificarCPF r t dn m).2.verificacao.attempts = r.verificacao.attempts + 1) ∧
        (dn = none → truthy m = true → (verificarCPF r t dn m).1 = Retorno.falso ∧
          (verificarCPF r t dn m).2.verificacao.attempts = r.verificacao.attempts + 1) := by
  have hdp : d.dadosPessoais =
      { nome := fd.nome, dataNascimento := none, nomeMae := none, genero := none } := by
    unfold converterFormData at h
    cases hi : fd.income with
    | none => simp [hi] at h
    | some i =>
      cases hl : fd.currentLimit with
      | none => simp [hi, hl] at h
      | some l =>
        simp only [hi, hl, Except.ok.injEq] at h
        rw [← h]
  have h1 : (novoFormSubmission corpo ip d agora).dadosPessoais.dataNascimento = none := by
    simp [novoFormSubmission, hdp]
  have h2 : (novoFormSubmission corpo ip d agora).dadosPessoais.nomeMae = none := by
    simp [novoFormSubmission, hdp]
  refine ⟨hdp, h1, h2, ?_⟩
  intro r hr t dn m
  have e := alcancavel_dadosPessoais _ r hr
  exact verificarCPF_sem_segredos r t dn m (by rw [e]; exact h1) (by rw [e]; exact h2)

/-- C29 (witness): the sample form converts, and on the record built from it
no call of `verificarCPF` returns true. -/
theorem registro_criado_nunca_verificado_exemplo :
    converterFormData (formularioExemplo (some "52998224725") none) = Except.ok convertidoExemplo ∧
    (convertidoExemplo.dadosPessoais =
      { nome := (formularioExemplo (some "52998224725") none).nome, dataNascimento := none
        nomeMae := none, genero := none } ∧
    (novoFormSubmission (corpoExemplo (some "s1") (some "52998224725") none) none
      convertidoExemplo 1700000123456).dadosPessoais.dataNascimento = none ∧
    (novoFormSubmission (corpoExemplo (some "s1") (some "52998224725") none) none
      convertidoExemplo 1700000123456).dadosPessoais.nomeMae = none ∧
    ∀ r, Alcancavel (novoFormSubmission (corpoExemplo (some "s1") (some "52998224725") none) none
        convertidoExemplo 1700000123456) r →
      ∀ (t : Nat) (dn m : Option String),
        (verificarCPF r t dn m).1 ≠ Retorno.verdadeiro ∧
        (∀ s, dn = some s → (verificarCPF r t dn m).1 = Retorno.falso ∧
          (verificarCPF r t dn m).2.verificacao.attempts = r.verificacao.attempts + 1) ∧
        (dn = none → truthy m = true → (verificarCPF r t dn m).1 = Retorno.falso ∧
          (verificarCPF r t dn m).2.verificacao.attempts = r.verificacao.attempts + 1)) :=
  ⟨rfl, registro_criado_nunca_verificado (corpoExemplo (some "s1") (some "52998224725") none) none
    (formularioExemplo (some "52998224725") none) convertidoExemplo 1700000123456 rfl⟩

/-! ## The state after success -/

/-- C30: the verification state keeps changing after success. From the fresh
sample record, a successful call followed by a call with a wrong birth date
reaches a state with `verified = true`, the birth-date step marked not
verified and `attempts` larger than at the moment of success; so "`verified`
implies both steps marked verified" is not an invariant of the reachable
states. -/
theorem verificarCPF_muda_apos_sucesso :
    NaoVerificado registroMaria ∧
    Alcancavel registroMaria
      (verificarCPF (verificarCPF registroMaria 1700000000001 (some "1990-01-31")
        (some "Maria Silva")).2 1700000000002 (some "1991-01-31") none).2 ∧
    (verificarCPF registroMaria 1700000000001 (some "1990-01-31")
      (some "Maria Silva")).1 = Retorno.verdadeiro ∧
    (verificarCPF (verificarCPF registroMaria 1700000000001 (some "1990-01-31")
      (some "Maria Silva")).2 1700000000002 (some "1991-01-31") none).2.verificacao.verified
      = true ∧
    (verificarCPF (verificarCPF registroMaria 1700000000001 (some "1990-01-31")
      (some "Maria Silva")).2 1700000000002 (some "1991-01-31")
      none).2.verificacao.steps.dataNascimento.verified = some false ∧
    (verificarCPF registroMaria 1700000000001 (some "1990-01-31")
      (some "Maria Silva")).2.verificacao.attempts <
    (verificarCPF (verificarCPF registroMaria 1700000000001 (some "1990-01-31")
      (some "Maria Silva")).2 1700000000002 (some "1991-01-31") none).2.verificacao.attempts ∧
    ¬ (∀ r, Alcancavel registroMaria r → r.verificacao.verified = true →
        r.verificacao.steps.dataNascimento.verified = some true ∧
        r.verificacao.steps.nomeMae.verified = some true) := by
  have hreach : Alcancavel registroMaria
      (verificarCPF (verificarCPF registroMaria 1700000000001 (some "1990-01-31")
        (some "Maria Silva")).2 1700000000002 (some "1991-01-31") none).2 :=
    Alcancavel.passo _ _ _ _ (Alcancavel.passo _ _ _ _ Alcancavel.inicio)
  refine ⟨by simp [NaoVerificado, registroMaria, registroExemplo, verificacaoPadrao], hreach,
    by decide, by decide, by decide, by decide, ?_⟩
  intro hinv
  have := (hinv _ hreach (by decide)).1
  revert this
  decide

/-! ## Formatting of the CPF while typing -/

theorem juntar_take {α : Type} (a b : Nat) (h : a ≤ b) (l : List α) :
    l.take a ++ (l.take b).drop a = l.take b := by
  have h1 : (l.take b).take a = l.take a := by
    rw [List.take_take, Nat.min_eq_left h]
  rw [← h1]
  exact List.take_append_drop a (l.take b)

theorem filter_sublista (l : List Char) (h : ∀ c ∈ l, ehDigito c = true) (a b : Nat) :
    ((l.take b).drop a).filter ehDigito = (l.take b).drop a ∧
    (l.drop a).filter ehDigito = l.drop a := by
  constructor
  · rw [List.filter_eq_self]
    intro c hc
    exact h c (List.mem_of_mem_take (List.mem_of_mem_drop hc))
  · rw [List.filter_eq_self]
    intro c hc
    exact h c (List.mem_of_mem_drop hc)

theorem somenteDigitos_formatarCPF (s : String) (h : (somenteDigitos s).data.length ≤ 11) :
    somenteDigitos (formatarCPF s) = somenteDigitos s := by
  have hd := somenteDigitos_ehDigito s
  have hself : (somenteDigitos s).data.filter ehDigito = (somenteDigitos s).data := by
    rw [List.filter_eq_self]; exact hd
  generalize hl : (somenteDigitos s).data = l at h hd hself
  have hs : somenteDigitos s = ⟨l⟩ := by rw [← hl]
  have f := filter_sublista l hd
  have e0 : l.take 3 = (l.take 3).drop 0 := rfl
  unfold formatarCPF
  simp only [hs]
  by_cases h3 : l.length ≤ 3
  · rw [if_pos h3]
    show (⟨l.filter ehDigito⟩ : String) = ⟨l⟩
    rw [hself]
  · rw [if_neg h3]
    by_cases h6 : l.length ≤ 6
    · rw [if_pos h6]
      show (⟨((((l.take 3).drop 0) ++ ['.']) ++ l.drop 3).filter ehDigito⟩ : String) = ⟨l⟩
      rw [List.filter_append, List.filter_append, (f 0 3).1, (f 3 0).2]
      show (⟨(l.take 3 ++ []) ++ l.drop 3⟩ : String) = ⟨l⟩
      rw [List.append_nil, List.take_append_drop]
    · rw [if_neg h6]
      by_cases h9 : l.length ≤ 9
      · rw [if_pos h9]
        show (⟨((((((l.take 3).drop 0) ++ ['.']) ++ (l.take 6).drop 3) ++ ['.']) ++
          l.drop 6).filter ehDigito⟩ : String) = ⟨l⟩
        simp only [List.filter_append, (f 0 3).1, (f 3 6).1, (f 6 0).2]
        show (⟨(((l.take 3 ++ []) ++ (l.take 6).drop 3) ++ []) ++ l.drop 6⟩ : String) = ⟨l⟩
        rw [List.append_nil, List.append_nil, juntar_take 3 6 (by decide), List.take_append_drop]
      · rw [if_neg h9]
        show (⟨((((((((l.take 3).drop 0) ++ ['.']) ++ (l.take 6).drop 3) ++ ['.']) ++
          (l.take 9).drop 6) ++ ['-']) ++ (l.take 11).drop 9).filter ehDigito⟩ : String) = ⟨l⟩
        simp only [List.filter_append, (f 0 3).1, (f 3 6).1, (f 6 9).1, (f 9 11).1]
        show (⟨(((((l.take 3 ++ []) ++ (l.take 6).drop 3) ++ []) ++ (l.take 9).drop 6) ++ []) ++
          (l.take 11).drop 9⟩ : String) = ⟨l⟩
        rw [List.append_nil, List.append_nil, List.append_nil, juntar_take 3 6 (by decide),
          juntar_take 6 9 (by decide), juntar_take 9 11 (by decide), List.take_of_length_le h]

theorem validarCPF_congr (a b : String) (h : somenteDigitos a = somenteDigitos b) :
    validarCPF a = validarCPF b := by
  unfold validarCPF
  rw [h]

/-- C28: `formatarCPF` of `validators.js` preserves validity only up to 11
digits. For every string with at most 11 digits, stripping the formatted
string gives back the digits of the input and `validarCPF` gives the same
answer on both; but the 12-digit input "529982247250" is rejected by
`validarCPF` while its formatted form, "529.982.247-25", which lost the
twelfth digit, is accepted. -/
theorem formatarCPF_preserva_ate_onze_digitos :
    (∀ s : String, (somenteDigitos s).data.length ≤ 11 →
      somenteDigitos (formatarCPF s) = somenteDigitos s ∧
      validarCPF (formatarCPF s) = validarCPF s) ∧
    formatarCPF "529982247250" = "529.982.247-25" ∧
    validarCPF "529982247250" = false ∧
    validarCPF (formatarCPF "529982247250") = true := by
  refine ⟨?_, by decide, by decide, by decide⟩
  intro s h
  exact ⟨somenteDigitos_formatarCPF s h, validarCPF_congr _ _ (somenteDigitos_formatarCPF s h)⟩

/-- C28 (witness): partial inputs while typing keep their digits. -/
theorem formatarCPF_exemplos :
    formatarCPF "5299" = "529.9" ∧ formatarCPF "5299822" = "529.982.2" ∧
    formatarCPF "52998224725" = "529.982.247-25" ∧
    somenteDigitos (formatarCPF "5299822") = "5299822" := by
  decide

/-! ## Error detection of the Luhn check -/

theorem parcelaLuhnSpec_le (k d : Nat) (h : d ≤ 9) : parcelaLuhnSpec k d ≤ 9 := by
  unfold parcelaLuhnSpec
  split_ifs <;> omega

theorem parcelaLuhnSpec_inj (k d e : Nat) (hd : d ≤ 9) (he : e ≤ 9)
    (h : parcelaLuhnSpec k d = parcelaLuhnSpec k e) : d = e := by
  unfold parcelaLuhnSpec at h
  split_ifs at h <;> omega

/-- The Luhn sum of a digit list around one position: the terms of the digits
to the right, the term of the digit itself, the terms of the digits to the
left. -/
theorem somaLuhnSpec_meio (a b : List Char) (c : Char) :
    somaLuhnSpec (a ++ c :: b) =
      ((b.reverse.enumFrom 1).map (fun p => parcelaLuhnSpec p.1 (valorDigito p.2))).sum +
      parcelaLuhnSpec (1 + b.length) (valorDigito c) +
      ((a.reverse.enumFrom (1 + b.length + 1)).map
        (fun p => parcelaLuhnSpec p.1 (valorDigito p.2))).sum := by
  unfold somaLuhnSpec
  rw [List.reverse_append, List.reverse_cons, List.append_assoc, List.enumFrom_append,
    List.enumFrom_append]
  simp only [List.map_append, List.sum_append, List.length_reverse, List.length_append,
    List.length_singleton, List.enumFrom_cons, List.enumFrom_nil, List.map_cons, List.map_nil,
    List.sum_cons, List.sum_nil, List.singleton_append, List.length_cons, List.length_nil,
    Nat.zero_add]
  omega

theorem somenteDigitos_meio (pre suf : List Char) (c : Char) (hc : ehDigito c = true) :
    (somenteDigitos ⟨pre ++ c :: suf⟩).data =
      pre.filter ehDigito ++ c :: suf.filter ehDigito := by
  unfold somenteDigitos
  simp only [List.filter_append, List.filter_cons, hc, if_true]

theorem luhn_detecta_troca (pre suf : List Char) (c c2 : Char)
    (hc : ehDigito c = true) (hc2 : ehDigito c2 = true) (hne : c ≠ c2)
    (hv : validarCartao ⟨pre ++ c :: suf⟩ = true) :
    validarCartao ⟨pre ++ c2 :: suf⟩ = false := by
  cases hv2 : validarCartao ⟨pre ++ c2 :: suf⟩ with
  | false => rfl
  | true =>
    exfalso
    have h1 := (validarCartao_sse_spec_aux _).mp hv
    have h2 := (validarCartao_sse_spec_aux _).mp hv2
    unfold cartaoValidoSpec at h1 h2
    rw [somenteDigitos_meio pre suf c hc, somaLuhnSpec_meio] at h1
    rw [somenteDigitos_meio pre suf c2 hc2, somaLuhnSpec_meio] at h2
    have l1 := parcelaLuhnSpec_le (1 + (suf.filter ehDigito).length) (valorDigito c)
      (digito_valor_le c hc)
    have l2 := parcelaLuhnSpec_le (1 + (suf.filter ehDigito).length) (valorDigito c2)
      (digito_valor_le c2 hc2)
    have e : parcelaLuhnSpec (1 + (suf.filter ehDigito).length) (valorDigito c) =
        parcelaLuhnSpec (1 + (suf.filter ehDigito).length) (valorDigito c2) := by
      have a1 := h1.2.2
      have a2 := h2.2.2
      omega
    have := parcelaLuhnSpec_inj _ _ _ (digito_valor_le c hc) (digito_valor_le c2 hc2) e
    exact hne (digito_inj c c2 hc hc2 this)

theorem validarCartao_acrescimo_iff (ds : List Char) (hd : ∀ x ∈ ds, ehDigito x = true)
    (h12 : 12 ≤ ds.length) (h18 : ds.length ≤ 18) (c : Char) (hc : ehDigito c = true) :
    validarCartao ⟨ds ++ [c]⟩ = true ↔
      (valorDigito c + ((ds.reverse.enumFrom 2).map
        (fun p => parcelaLuhnSpec p.1 (valorDigito p.2))).sum) % 10 = 0 := by
  rw [validarCartao_sse_spec_aux]
  unfold cartaoValidoSpec
  have hf : ds.filter ehDigito = ds := by rw [List.filter_eq_self]; exact hd
  rw [somenteDigitos_meio ds [] c hc, somaLuhnSpec_meio]
  simp only [List.filter_nil, List.length_nil, List.reverse_nil, List.enumFrom_nil, List.map_nil,
    List.sum_nil, hf, List.length_append, List.length_singleton, Nat.zero_add, Nat.add_zero]
  have hp : parcelaLuhnSpec 1 (valorDigito c) = valorDigito c := by
    unfold parcelaLuhnSpec; simp
  rw [hp]
  constructor
  · intro h; exact h.2.2
  · intro h; exact ⟨by omega, by omega, h⟩

theorem luhn_digito_unico (ds : List Char) (hd : ∀ x ∈ ds, ehDigito x = true)
    (h12 : 12 ≤ ds.length) (h18 : ds.length ≤ 18) :
    ∃! c : Char, ehDigito c = true ∧ validarCartao ⟨ds ++ [c]⟩ = true := by
  generalize hR : ((ds.reverse.enumFrom 2).map
    (fun p => parcelaLuhnSpec p.1 (valorDigito p.2))).sum = R
  have ht : (10 - R % 10) % 10 ≤ 9 := by omega
  have hx := digitChar_digito _ ht
  refine ⟨Nat.digitChar ((10 - R % 10) % 10), ⟨hx.1, ?_⟩, ?_⟩
  · rw [validarCartao_acrescimo_iff ds hd h12 h18 _ hx.1, hR]
    unfold valorDigito
    rw [hx.2.1]
    omega
  · rintro y ⟨hy, hv⟩
    rw [validarCartao_acrescimo_iff ds hd h12 h18 _ hy, hR] at hv
    have hle := digito_valor_le y hy
    unfold valorDigito at hv
    have : y.toNat - 48 = (10 - R % 10) % 10 := by omega
    rw [digito_eq_digitChar y hy, this]

/-- C26: the Luhn check of `validarCartao` detects every single-digit
substitution: if a string is accepted and one of its digits is replaced by a
different digit, the result is rejected. And every string of 12 to 18 digits
has exactly one digit whose appending makes `validarCartao` accept it. -/
theorem validarCartao_detecta_troca_de_um_digito :
    (∀ (pre suf : List Char) (c c2 : Char), ehDigito c = true → ehDigito c2 = true → c ≠ c2 →
      validarCartao ⟨pre ++ c :: suf⟩ = true → validarCartao ⟨pre ++ c2 :: suf⟩ = false) ∧
    (∀ ds : List Char, (∀ x ∈ ds, ehDigito x = true) → 12 ≤ ds.length → ds.length ≤ 18 →
      ∃! c : Char, ehDigito c = true ∧ validarCartao ⟨ds ++ [c]⟩ = true) :=
  ⟨luhn_detecta_troca, luhn_digito_unico⟩

/-- C26 (witness): "4532015112830366" is accepted; replacing its last digit by
7, its first digit by 5 or its ninth digit by 0 gives a rejected number; of
the ten digits appended to "453201511283036" only 6 is accepted. -/
theorem validarCartao_detecta_troca_exemplos :
    validarCartao "4532015112830366" = true ∧ validarCartao "4532015112830367" = false ∧
    validarCartao "5532015112830366" = false ∧ validarCartao "4532015102830366" = false ∧
    ("0123456789".data.filter (fun c => validarCartao ⟨"453201511283036".data ++ [c]⟩)) = ['6'] := by
  decide

/-! ## The random part of the protocol -/

theorem comprimentoBits_le (f : Nat) : ∀ (n k : Nat), n < 2 ^ k → comprimentoBits f n ≤ k := by
  induction f with
  | zero => intro n k _; simp [comprimentoBits]
  | succ f ih =>
    intro n k h
    unfold comprimentoBits
    by_cases hn : n = 0
    · simp [hn]
    · rw [if_neg hn]
      cases k with
      | zero => simp at h; exact absurd h hn
      | succ k =>
        have : n / 2 < 2 ^ k := by
          rw [Nat.pow_succ] at h
          omega
        have := ih (n / 2) k this
        omega

/-- Double rounding moves a value below `2^67 / 2^53` by at most `2^13 / 2^53`
upwards. -/
theorem arredondar53_le (p : Nat) (h : p < 2 ^ 67) : arredondar53 p ≤ p + 2 ^ 13 := by
  unfold arredondar53
  have hs : comprimentoBits 128 p - 53 ≤ 14 := by
    have := comprimentoBits_le 128 p 67 h
    omega
  generalize comprimentoBits 128 p - 53 = s at hs
  simp only
  have hP : 2 ^ s ≤ 2 ^ 14 := Nat.pow_le_pow_right (by decide) hs
  have hpos : 0 < 2 ^ s := Nat.pow_pos (by decide)
  have hdm := Nat.div_add_mod p (2 ^ s)
  have hr : p % 2 ^ s < 2 ^ s := Nat.mod_lt _ hpos
  generalize 2 ^ s = P at hP hpos hdm hr
  have hmul : (p / P + 1) * P = P * (p / P) + P := by
    rw [Nat.add_mul, Nat.one_mul, Nat.mul_comm]
  have hmul2 : p / P * P = P * (p / P) := Nat.mul_comm _ _
  generalize P * (p / P) = A at hdm hmul hmul2
  split_ifs with hc
  · rw [hmul]
    rcases hc with hc | hc <;> omega
  · rw [hmul2]
    omega

/-- `Math.floor(Math.random() * 9000)` never reaches 9000. -/
theorem sorteio9000_le (m : Nat) (h : m < 2 ^ 53) : sorteio9000 m ≤ 8999 := by
  unfold sorteio9000
  have hp : 9000 * m < 2 ^ 67 := by
    have : (2:Nat) ^ 67 = 16384 * 2 ^ 53 := by norm_num
    omega
  have := arredondar53_le (9000 * m) hp
  have h9 : arredondar53 (9000 * m) < 9000 * 2 ^ 53 := by
    have e : (2:Nat) ^ 13 = 8192 := by norm_num
    omega
  have := (Nat.div_lt_iff_lt_mul (Nat.pow_pos (by decide) : 0 < 2 ^ 53)).mpr h9
  omega

/-! ## Decimal representations -/

theorem toDigitsCore_append (f : Nat) : ∀ (n : Nat) (ds : List Char),
    Nat.toDigitsCore 10 f n ds = Nat.toDigitsCore 10 f n [] ++ ds := by
  induction f with
  | zero => intro n ds; simp [Nat.toDigitsCore]
  | succ f ih =>
    intro n ds
    simp only [Nat.toDigitsCore]
    by_cases h : n / 10 = 0
    · simp [h]
    · simp only [h, if_false]
      rw [ih (n / 10) (Nat.digitChar (n % 10) :: ds), ih (n / 10) [Nat.digitChar (n % 10)]]
      simp

theorem toDigitsCore_combustivel (n : Nat) : ∀ f, n < f →
    Nat.toDigitsCore 10 f n [] = Nat.toDigits 10 n := by
  induction n using Nat.strong_induction_on with
  | _ n ih =>
    intro f hf
    unfold Nat.toDigits
    cases f with
    | zero => omega
    | succ g =>
      simp only [Nat.toDigitsCore]
      by_cases h : n / 10 = 0
      · simp [h]
      · simp only [h, if_false]
        have hlt : n / 10 < n := by omega
        have hg : n / 10 < g := by omega
        rw [toDigitsCore_append g, toDigitsCore_append n, ih (n / 10) hlt g hg,
          ih (n / 10) hlt n hlt]

theorem toDigits_pequeno (n : Nat) (h : n < 10) : Nat.toDigits 10 n = [Nat.digitChar n] := by
  unfold Nat.toDigits
  simp only [Nat.toDigitsCore]
  have h0 : n / 10 = 0 := by omega
  have h1 : n % 10 = n := by omega
  simp [h0, h1]

theorem toDigits_passo (n : Nat) (h : 10 ≤ n) :
    Nat.toDigits 10 n = Nat.toDigits 10 (n / 10) ++ [Nat.digitChar (n % 10)] := by
  conv_lhs => unfold Nat.toDigits
  simp only [Nat.toDigitsCore]
  have h0 : ¬ n / 10 = 0 := by omega
  simp only [h0, if_false]
  rw [toDigitsCore_append, toDigitsCore_combustivel (n / 10) n (by omega)]

theorem decimalFixo_length (k : Nat) : ∀ x, (decimalFixo k x).length = k := by
  induction k with
  | zero => intro x; rfl
  | succ k ih => intro x; simp [decimalFixo, ih]

theorem decimalFixo_digitos (k : Nat) : ∀ x, ∀ c ∈ decimalFixo k x,
    ehDigito c = true ∧ ehEspaco c = false := by
  induction k with
  | zero => intro x c hc; simp [decimalFixo] at hc
  | succ k ih =>
    intro x c hc
    simp only [decimalFixo, List.mem_append, List.mem_singleton] at hc
    rcases hc with hc | hc
    · exact ih _ c hc
    · rw [hc]
      have := digitChar_digito (x % 10) (by omega)
      exact ⟨this.1, this.2.2⟩

theorem decimalFixo_mod (k : Nat) : ∀ x, decimalFixo k (x % 10 ^ k) = decimalFixo k x := by
  induction k with
  | zero => intro x; rfl
  | succ k ih =>
    intro x
    simp only [decimalFixo]
    have h1 : x % 10 ^ (k + 1) % 10 = x % 10 := by
      rw [Nat.pow_succ, Nat.mul_comm]
      exact Nat.mod_mul_right_mod x 10 (10 ^ k)
    have h2 : x % 10 ^ (k + 1) / 10 = (x / 10) % 10 ^ k := by
      rw [Nat.pow_succ, Nat.mul_comm]
      exact Nat.mod_mul_right_div_self x 10 (10 ^ k)
    rw [h1, h2, ih]

/-- A number of more than `k` digits ends in its `k + 1`-digit fixed
representation. -/
theorem toDigits_sufixo (k : Nat) : ∀ n, 10 ^ k ≤ n →
    ∃ pre, Nat.toDigits 10 n = pre ++ decimalFixo (k + 1) n := by
  induction k with
  | zero =>
    intro n h
    by_cases h10 : n < 10
    · refine ⟨[], ?_⟩
      rw [toDigits_pequeno n h10]
      have : n % 10 = n := by omega
      simp [decimalFixo, this]
    · exact ⟨Nat.toDigits 10 (n / 10), by rw [toDigits_passo n (by omega)]; simp [decimalFixo]⟩
  | succ k ih =>
    intro n h
    have hk1 : 10 ^ k * 10 ≤ n := by rw [← Nat.pow_succ]; exact h
    have hpos : 0 < 10 ^ k := Nat.pow_pos (by decide)
    have hk : 10 ^ k ≤ n / 10 := (Nat.le_div_iff_mul_le (by decide)).mpr hk1
    obtain ⟨pre, hpre⟩ := ih (n / 10) hk
    refine ⟨pre, ?_⟩
    rw [toDigits_passo n (by omega), hpre]
    conv_rhs => rw [decimalFixo]
    simp

/-- The last `k + 1` characters of the decimal representation of a number
`n ≥ 10^k` are the `k + 1`-digit representation of `n mod 10^(k+1)`. -/
theorem repr_ultimos (k n : Nat) (h : 10 ^ k ≤ n) :
    (Nat.repr n).data.drop ((Nat.repr n).data.length - (k + 1)) =
      decimalFixo (k + 1) (n % 10 ^ (k + 1)) := by
  obtain ⟨pre, hpre⟩ := toDigits_sufixo k n h
  have e : (Nat.repr n).data = pre ++ decimalFixo (k + 1) n := by
    rw [← hpre]; rfl
  rw [e, decimalFixo_mod, List.length_append, decimalFixo_length, Nat.add_sub_cancel]
  exact List.drop_left pre (decimalFixo (k + 1) n)

/-- A number from 1000 to 9999 is written with four digits, the first not 0. -/
theorem repr_quatro_digitos (n : Nat) (h1 : 1000 ≤ n) (h2 : n ≤ 9999) :
    (Nat.repr n).data = [Nat.digitChar (n / 1000), Nat.digitChar (n / 100 % 10),
      Nat.digitChar (n / 10 % 10), Nat.digitChar (n % 10)] ∧
    Nat.digitChar (n / 1000) ≠ '0' := by
  constructor
  · show Nat.toDigits 10 n = _
    rw [toDigits_passo n (by omega), toDigits_passo (n / 10) (by omega),
      toDigits_passo (n / 10 / 10) (by omega), toDigits_pequeno (n / 10 / 10 / 10) (by omega)]
    have a : n / 10 / 10 / 10 = n / 1000 := by omega
    have b : n / 10 / 10 % 10 = n / 100 % 10 := by omega
    rw [a, b]
    rfl
  · have hd : 1 ≤ n / 1000 ∧ n / 1000 ≤ 9 := by omega
    generalize n / 1000 = d at hd
    obtain ⟨ha, hb⟩ := hd
    interval_cases d <;> decide

theorem decimalFixo_zero (k : Nat) : decimalFixo k 0 = List.replicate k '0' := by
  induction k with
  | zero => rfl
  | succ k ih =>
    simp only [decimalFixo, Nat.zero_div, Nat.zero_mod, ih]
    rw [List.replicate_succ', show Nat.digitChar 0 = '0' from rfl]

/-- The fixed-width representation is the decimal representation left-padded
with zeros. -/
theorem decimalFixo_preenchido (k : Nat) : ∀ x, x < 10 ^ (k + 1) →
    decimalFixo (k + 1) x =
      List.replicate (k + 1 - (Nat.repr x).data.length) '0' ++ (Nat.repr x).data := by
  induction k with
  | zero =>
    intro x h
    have hx : x < 10 := by simpa using h
    have e : (Nat.repr x).data = [Nat.digitChar x] := toDigits_pequeno x hx
    have : x % 10 = x := by omega
    rw [e]
    simp [decimalFixo, this]
  | succ k ih =>
    intro x h
    by_cases hx : x < 10
    · have e : (Nat.repr x).data = [Nat.digitChar x] := toDigits_pequeno x hx
      have h0 : x / 10 = 0 := by omega
      have h1 : x % 10 = x := by omega
      rw [e]
      conv_lhs => rw [decimalFixo, h0, h1, decimalFixo_zero]
      simp
    · have e : (Nat.repr x).data = (Nat.repr (x / 10)).data ++ [Nat.digitChar (x % 10)] :=
        toDigits_passo x (by omega)
      have hlt : x / 10 < 10 ^ (k + 1) := by
        rw [Nat.pow_succ] at h
        omega
      rw [e]
      conv_lhs => rw [decimalFixo, ih (x / 10) hlt]
      simp only [List.length_append, List.length_singleton, List.append_assoc]
      congr 2
      omega

theorem trim_sem_espacos (s : String) (h : ∀ c ∈ s.data, ehEspaco c = false) : trim s = s := by
  have aux : ∀ l : List Char, (∀ c ∈ l, ehEspaco c = false) → l.dropWhile ehEspaco = l := by
    intro l hl
    cases l with
    | nil => rfl
    | cons c cs =>
      have := hl c (List.mem_cons_self c cs)
      simp [List.dropWhile, this]
  unfold trim
  rw [aux s.data h, aux s.data.reverse (fun c hc => h c (List.mem_reverse.mp hc)),
    List.reverse_reverse]

/-- The protocol string for a time of at least six digits and a draw below 1. -/
theorem gerarProtocolo_data (r : FormSubmission) (agora m : Nat) (h1 : 100000 ≤ agora)
    (h2 : m < 2 ^ 53) :
    (gerarProtocolo r agora m).1.data =
      decimalFixo 6 (agora % 1000000) ++
        [Nat.digitChar ((sorteio9000 m + 1000) / 1000),
          Nat.digitChar ((sorteio9000 m + 1000) / 100 % 10),
          Nat.digitChar ((sorteio9000 m + 1000) / 10 % 10),
          Nat.digitChar ((sorteio9000 m + 1000) % 10)] ∧
    (gerarProtocolo r agora m).2 = { r with protocoloGerado := some (gerarProtocolo r agora m).1 } := by
  have hs := sorteio9000_le m h2
  have hq := (repr_quatro_digitos (sorteio9000 m + 1000) (by omega) (by omega)).1
  have ht : (Nat.repr agora).data.drop ((Nat.repr agora).data.length - 6) =
      decimalFixo 6 (agora % 1000000) := repr_ultimos 5 agora (by norm_num; exact h1)
  refine ⟨?_, rfl⟩
  unfold gerarProtocolo
  simp only
  have hdata : ((⟨(Nat.repr agora).data.drop ((Nat.repr agora).data.length - 6)⟩ : String) ++
      Nat.repr (sorteio9000 m + 1000)).data = decimalFixo 6 (agora % 1000000) ++
        [Nat.digitChar ((sorteio9000 m + 1000) / 1000),
          Nat.digitChar ((sorteio9000 m + 1000) / 100 % 10),
          Nat.digitChar ((sorteio9000 m + 1000) / 10 % 10),
          Nat.digitChar ((sorteio9000 m + 1000) % 10)] := by
    rw [String.data_append, ht, hq]
  rw [trim_sem_espacos, hdata]
  intro c hc
  rw [hdata] at hc
  rcases List.mem_append.mp hc with hc | hc
  · exact (decimalFixo_digitos 6 _ c hc).2
  · simp only [List.mem_cons, List.mem_singleton, List.not_mem_nil, or_false] at hc
    rcases hc with hc | hc | hc | hc <;> rw [hc] <;>
      exact (digitChar_digito _ (by omega)).2.2

/-- The double product is never below the exact one's floor and at most one
above it. -/
theorem sorteio9000_exato (m : Nat) (h : m < 2 ^ 53) :
    9000 * m / 2 ^ 53 ≤ sorteio9000 m ∧ sorteio9000 m ≤ 9000 * m / 2 ^ 53 + 1 := by
  have hp : 9000 * m < 2 ^ 67 := by
    have : (2:Nat) ^ 67 = 16384 * 2 ^ 53 := by norm_num
    omega
  have hup := arredondar53_le (9000 * m) hp
  have hpos53 : 0 < 2 ^ 53 := Nat.pow_pos (by decide)
  constructor
  · unfold sorteio9000
    rw [Nat.le_div_iff_mul_le hpos53]
    generalize 9000 * m = p at hp hup
    unfold arredondar53
    have hs : comprimentoBits 128 p - 53 ≤ 14 := by
      have := comprimentoBits_le 128 p 67 hp
      omega
    generalize comprimentoBits 128 p - 53 = s at hs
    simp only
    have hsplit : (2:Nat) ^ 53 = 2 ^ (53 - s) * 2 ^ s := by
      rw [← Nat.pow_add]; congr 1; omega
    have hpos : 0 < 2 ^ s := Nat.pow_pos (by decide)
    have hle : p / 2 ^ 53 * 2 ^ 53 ≤ p := Nat.div_mul_le_self p (2 ^ 53)
    have hq : p / 2 ^ 53 * 2 ^ (53 - s) ≤ p / 2 ^ s := by
      rw [Nat.le_div_iff_mul_le hpos, Nat.mul_assoc, ← hsplit]
      exact hle
    have hbase : p / 2 ^ 53 * 2 ^ 53 ≤ p / 2 ^ s * 2 ^ s := by
      generalize p / 2 ^ 53 = n at hq ⊢
      rw [hsplit, ← Nat.mul_assoc]
      exact Nat.mul_le_mul_right _ hq
    split_ifs
    · exact Nat.le_trans hbase (Nat.mul_le_mul_right _ (Nat.le_succ _))
    · exact hbase
  · unfold sorteio9000
    have e13 : (2:Nat) ^ 13 = 8192 := by norm_num
    have e53 : (2:Nat) ^ 53 = 9007199254740992 := by norm_num
    rw [e13] at hup
    rw [e53]
    omega

/-! ## The protocol -/

/-- C21 (as amended): for every current time of at least 100000 milliseconds
(a time written with six digits or more) and every random draw in [0, 1),
`gerarProtocolo` returns, and stores in `protocoloGerado`, a string of exactly
10 characters, each a decimal digit. -/
theorem gerarProtocolo_dez_digitos (r : FormSubmission) (agora m : Nat) (h1 : 100000 ≤ agora)
    (h2 : m < 2 ^ 53) :
    (gerarProtocolo r agora m).1.data.length = 10 ∧
    (∀ c ∈ (gerarProtocolo r agora m).1.data, ehDigito c = true) ∧
    (gerarProtocolo r agora m).2.protocoloGerado = some (gerarProtocolo r agora m).1 := by
  obtain ⟨hd, hr⟩ := gerarProtocolo_data r agora m h1 h2
  have hs := sorteio9000_le m h2
  refine ⟨?_, ?_, by rw [hr]⟩
  · rw [hd, List.length_append, decimalFixo_length]
    rfl
  · intro c hc
    rw [hd] at hc
    rcases List.mem_append.mp hc with hc | hc
    · exact (decimalFixo_digitos 6 _ c hc).1
    · simp only [List.mem_cons, List.mem_singleton, List.not_mem_nil, or_false] at hc
      rcases hc with hc | hc | hc | hc <;> rw [hc] <;>
        exact (digitChar_digito _ (by omega)).1

/-- C21 (witness): at the time 1700000123456 and the draw 1/2 the protocol is
"1234565500". -/
theorem gerarProtocolo_dez_digitos_exemplo :
    100000 ≤ 1700000123456 ∧ 2 ^ 52 < 2 ^ 53 ∧
    (gerarProtocolo registroMaria 1700000123456 (2 ^ 52)).1 = "1234565500" ∧
    ((gerarProtocolo registroMaria 1700000123456 (2 ^ 52)).1.data.length = 10 ∧
    (∀ c ∈ (gerarProtocolo registroMaria 1700000123456 (2 ^ 52)).1.data, ehDigito c = true) ∧
    (gerarProtocolo registroMaria 1700000123456 (2 ^ 52)).2.protocoloGerado
      = some (gerarProtocolo registroMaria 1700000123456 (2 ^ 52)).1) :=
  ⟨by norm_num, by norm_num, by decide,
    gerarProtocolo_dez_digitos registroMaria 1700000123456 (2 ^ 52) (by norm_num) (by norm_num)⟩

/-- C21 (counterexample): at the times 5 and 99999 the timestamp part has fewer
than six characters and the protocol has 5 and 9 characters. -/
theorem gerarProtocolo_tempo_curto :
    (gerarProtocolo registroMaria 5 0).1 = "51000" ∧
    (gerarProtocolo registroMaria 5 0).1.data.length = 5 ∧
    (gerarProtocolo registroMaria 99999 0).1 = "999991000" ∧
    (gerarProtocolo registroMaria 99999 0).1.data.length = 9 := by
  decide

/-- C25: for every time of at least 100000 milliseconds and every random draw
`m / 2^53` in [0, 1), `gerarProtocolo` returns the six-digit decimal
representation of `agora mod 1000000`, left-padded with zeros, followed by the
decimal representation of `Math.floor(Math.random() * 9000) + 1000`; that
second part is an integer from 1000 to 9999, written with exactly four
digits, the first of which is not 0. -/
theorem gerarProtocolo_formato (r : FormSubmission) (agora m : Nat) (h1 : 100000 ≤ agora)
    (h2 : m < 2 ^ 53) :
    (gerarProtocolo r agora m).1.data =
      decimalFixo 6 (agora % 1000000) ++ (Nat.repr (sorteio9000 m + 1000)).data ∧
    decimalFixo 6 (agora % 1000000) =
      List.replicate (6 - (Nat.repr (agora % 1000000)).data.length) '0' ++
        (Nat.repr (agora % 1000000)).data ∧
    1000 ≤ sorteio9000 m + 1000 ∧ sorteio9000 m + 1000 ≤ 9999 ∧
    (Nat.repr (sorteio9000 m + 1000)).data.length = 4 ∧
    (Nat.repr (sorteio9000 m + 1000)).data.head? ≠ some '0' := by
  have hs := sorteio9000_le m h2
  obtain ⟨hq, hz⟩ := repr_quatro_digitos (sorteio9000 m + 1000) (by omega) (by omega)
  refine ⟨?_, ?_, by omega, by omega, ?_, ?_⟩
  · rw [(gerarProtocolo_data r agora m h1 h2).1, hq]
  · exact decimalFixo_preenchido 5 _ (Nat.mod_lt _ (by norm_num))
  · rw [hq]; rfl
  · rw [hq]
    simp only [List.head?_cons, ne_eq, Option.some.injEq]
    exact hz

/-- C25 (witness): at the time 1700000000042 the timestamp part is "000042",
padded with zeros; the draws 0 and (2^53 - 1) / 2^53 give the random parts
1000 and 9999. -/
theorem gerarProtocolo_formato_exemplo :
    100000 ≤ 1700000000042 ∧ 2 ^ 53 - 1 < 2 ^ 53 ∧
    (gerarProtocolo registroMaria 1700000000042 0).1 = "0000421000" ∧
    (gerarProtocolo registroMaria 1700000000042 (2 ^ 53 - 1)).1 = "0000429999" ∧
    ((gerarProtocolo registroMaria 1700000000042 (2 ^ 53 - 1)).1.data =
      decimalFixo 6 (1700000000042 % 1000000) ++
        (Nat.repr (sorteio9000 (2 ^ 53 - 1) + 1000)).data ∧
    decimalFixo 6 (1700000000042 % 1000000) =
      List.replicate (6 - (Nat.repr (1700000000042 % 1000000)).data.length) '0' ++
        (Nat.repr (1700000000042 % 1000000)).data ∧
    1000 ≤ sorteio9000 (2 ^ 53 - 1) + 1000 ∧ sorteio9000 (2 ^ 53 - 1) + 1000 ≤ 9999 ∧
    (Nat.repr (sorteio9000 (2 ^ 53 - 1) + 1000)).data.length = 4 ∧
    (Nat.repr (sorteio9000 (2 ^ 53 - 1) + 1000)).data.head? ≠ some '0') :=
  ⟨by norm_num, by norm_num, by decide, by decide,
    gerarProtocolo_formato registroMaria 1700000000042 (2 ^ 53 - 1) (by norm_num) (by norm_num)⟩

/-- The bounds of `sorteio9000_exato` at the draw 8377696106826316 / 2^53. -/
theorem sorteio9000_exato_exemplo :
    8377696106826316 < 2 ^ 53 ∧
    (9000 * 8377696106826316 / 2 ^ 53 ≤ sorteio9000 8377696106826316 ∧
      sorteio9000 8377696106826316 ≤ 9000 * 8377696106826316 / 2 ^ 53 + 1) :=
  ⟨by norm_num, sorteio9000_exato 8377696106826316 (by norm_num)⟩

/-- The draw 8377696106826316 / 2^53: the exact product 9000 u lies 2^-48 below
8371 and its double rounding is 8371, so `Math.floor` gives 8371 where the
floor of the exact product is 8370. -/
theorem sorteio9000_arredonda_para_cima :
    8377696106826316 < 2 ^ 53 ∧ sorteio9000 8377696106826316 = 8371 ∧
    9000 * 8377696106826316 / 2 ^ 53 = 8370 := by
  refine ⟨by norm_num, by decide, by norm_num⟩

/-! ## Exceptions of `converterFormData` -/

/-- C23 (the code at the failing input): on a form without `income`, or
without `currentLimit`, `converterFormData` throws a `TypeError` (the call of
`.replace` on `undefined`), which `createSubmission` answers with 500; a form
without `desiredLimit` is converted, the number being parsed from the text
"undefined". -/
theorem converterFormData_lanca_sem_income :
    converterFormData { formularioExemplo (some "52998224725") none with income := none }
      = Except.error Erro.typeError ∧
    converterFormData { formularioExemplo (some "52998224725") none with currentLimit := none }
      = Except.error Erro.typeError ∧
    converterFormData { formularioExemplo (some "52998224725") none with desiredLimit := none }
      = Except.ok { convertidoExemplo with dadosFinanceiros :=
          { renda := some ⟨"1000.00"⟩, limiteAtual := some ⟨"500"⟩
            limiteDesejado := some ⟨"undefined"⟩ } } ∧
    (createSubmission bancoVazio
      ⟨some "s1", some { formularioExemplo (some "52998224725") none with income := none },
        none, none⟩ none 1700000123456 0).1 = Resposta.erroInterno Erro.typeError :=
  ⟨rfl, rfl, rfl, by decide⟩

/-! ## Sanitising analytics events -/

theorem sliceUltimos4_de_digitos (s : String) (h : s.data.all ehDigito = true) :
    sliceUltimos4 s = sliceUltimos4 (somenteDigitos s) := by
  rw [somenteDigitos_de_digitos s h]

/-- What `sanitizeSensitiveData` does to an object: a non-empty string
`cardNumber` becomes `****` followed by the last four characters of the
string as submitted (non-digits are not stripped first), which is `****` plus
the last four digits for a number made of digits only. A non-empty `cpf` is
replaced by `maskCPF` of it, the nested `formData` and `data` objects are
sanitised in the same way, and the other fields are returned unchanged. -/
theorem sanitizeSensitiveData_campos (sha256 : String → String)
    (cardNumber cardCvv password cpf : Campo) (formData data : Dados)
    (outros : List (String × Campo)) :
    sanitizeSensitiveData sha256 (Dados.objeto cardNumber cardCvv password cpf formData data outros)
      = Dados.objeto (sanitizarCampo sha256 "cardNumber" cardNumber)
          (sanitizarCampo sha256 "cardCvv" cardCvv) (sanitizarCampo sha256 "password" password)
          (sanitizarCampo sha256 "cpf" cpf) (sanitizeSensitiveData sha256 formData)
          (sanitizeSensitiveData sha256 data) outros ∧
    (∀ s : String, s ≠ "" →
      sanitizarCampo sha256 "cardNumber" (Campo.texto s) =
        Campo.texto ("****" ++ sliceUltimos4 s) ∧
      (s.data.all ehDigito = true →
        sanitizarCampo sha256 "cardNumber" (Campo.texto s) =
          Campo.texto ("****" ++ sliceUltimos4 (somenteDigitos s))) ∧
      sanitizarCampo sha256 "cpf" (Campo.texto s) = Campo.texto (maskCPF s)) := by
  refine ⟨rfl, ?_⟩
  intro s hs
  have ht : (Campo.texto s).verdadeiro = true := by
    simp [Campo.verdadeiro, hs]
  have h1 : sanitizarCampo sha256 "cardNumber" (Campo.texto s) =
      Campo.texto ("****" ++ sliceUltimos4 s) := by
    unfold sanitizarCampo
    rw [if_pos ht, if_neg (by decide), if_pos ⟨rfl, rfl⟩]
    rfl
  refine ⟨h1, ?_, ?_⟩
  · intro hd
    rw [h1, sliceUltimos4_de_digitos s hd]
  · unfold sanitizarCampo
    rw [if_pos ht, if_pos rfl]
    rfl

/-- C24 (the code at the failing input): for the card number
"4532015112830366 ", with a trailing blank, the stored value is "****366 ",
not "****0366"; for "4532-0151-1283-03-66" inside `formData` it is
"****3-66", while the `cpf` next to it is stripped and masked. -/
theorem sanitizeSensitiveData_nao_remove_separadores :
    sanitizeSensitiveData (fun t => t)
        (Dados.objeto (Campo.texto "4532015112830366 ") Campo.ausente Campo.ausente
          Campo.ausente Dados.ausente Dados.ausente [])
      = Dados.objeto (Campo.texto "****366 ") Campo.ausente Campo.ausente Campo.ausente
          Dados.ausente Dados.ausente [] ∧
    "****" ++ sliceUltimos4 (somenteDigitos "4532015112830366 ") = "****0366" ∧
    sanitizeSensitiveData (fun t => t)
        (Dados.objeto Campo.ausente Campo.ausente Campo.ausente Campo.ausente
          (Dados.objeto (Campo.texto "4532-0151-1283-03-66") Campo.ausente Campo.ausente
            (Campo.texto "529.982.247-25") Dados.ausente Dados.ausente []) Dados.ausente [])
      = Dados.objeto Campo.ausente Campo.ausente Campo.ausente Campo.ausente
          (Dados.objeto (Campo.texto "****3-66") Campo.ausente Campo.ausente
            (Campo.texto "529*****25") Dados.ausente Dados.ausente []) Dados.ausente [] := by
  decide

/-! ## What the read handlers return -/

theorem sanitizar_carregado (r : FormSubmission) :
    (sanitizarParaExibicao (carregar r)).dadosCartao.numero = none ∧
    (sanitizarParaExibicao (carregar r)).dadosCartao.cvv = none ∧
    (∀ c, r.cpf = some c → c ≠ "" →
      (sanitizarParaExibicao (carregar r)).cpf = some (mascararCpfBruto c)) := by
  obtain ⟨sid, ts, cpf, tp, v, dp, ⟨n, val, cvv, ud⟩, en, df, ua, ip, st, pg, cm⟩ := r
  rcases opcao_casos cpf with h1 | h1 | ⟨c, h1, h1'⟩ <;> subst h1 <;>
    simp [sanitizarParaExibicao, toObject, carregar, *]

theorem toObject_carregado (r : FormSubmission) :
    (toObject (carregar r)).cpf = r.cpf ∧ (toObject (carregar r)).dadosCartao.numero = none ∧
    (toObject (carregar r)).dadosCartao.cvv = none := ⟨rfl, rfl, rfl⟩

theorem find_mem (bd : Banco) (filtro : FormSubmission → Bool) (skip limit : Nat)
    (x : FormSubmission) (h : x ∈ find bd filtro skip limit) :
    ∃ r ∈ bd.submissoes, x = carregar r := by
  unfold find at h
  obtain ⟨r, hr, rfl⟩ := List.mem_map.mp h
  refine ⟨r, ?_, rfl⟩
  have h1 := List.mem_of_mem_drop (List.mem_of_mem_take hr)
  exact (List.mem_filter.mp (List.mem_reverse.mp h1)).1

theorem findById_mem (bd : Banco) (id : Nat) (x : FormSubmission) (h : findById bd id = some x) :
    ∃ r ∈ bd.submissoes, x = carregar r := by
  unfold findById at h
  cases hr : bd.submissoes[id]? with
  | none => rw [hr] at h; cases h
  | some r =>
    rw [hr] at h
    simp only [Option.map_some', Option.some.injEq] at h
    exact ⟨r, List.getElem?_mem hr, h.symm⟩

/-- C22 (as amended): the handlers of `submissionController.js`
(`getSubmissionById`, `getSubmissionsByCPF`, `listSubmissions`) return every
record through `sanitizarParaExibicao`: the CPF is shown through the mask and
neither card number nor CVV is present. The admin handlers (`getSubmissions`,
`getSubmissionDetails`, `updateSubmission`) return the loaded documents as
they are: neither card number nor CVV is present (they are not loaded), but
the CPF is the stored one, unmasked. `GET /api/submissions` returns the
stored documents as they are, with everything the request body carried. -/
theorem leituras_o_que_retornam (bd : Banco) :
    (∀ id v, getSubmissionById bd id = Leitura.ok v →
      ∃ r ∈ bd.submissoes, v = sanitizarParaExibicao (carregar r)) ∧
    (∀ cpf vs, getSubmissionsByCPF bd cpf = Leitura.ok vs →
      ∀ v ∈ vs, ∃ r ∈ bd.submissoes, v = sanitizarParaExibicao (carregar r)) ∧
    (∀ status skip limit vs, listSubmissions bd status skip limit = Leitura.ok vs →
      ∀ v ∈ vs, ∃ r ∈ bd.submissoes, v = sanitizarParaExibicao (carregar r)) ∧
    (∀ r : FormSubmission,
      (sanitizarParaExibicao (carregar r)).dadosCartao.numero = none ∧
      (sanitizarParaExibicao (carregar r)).dadosCartao.cvv = none ∧
      (∀ c, r.cpf = some c → c ≠ "" →
        (sanitizarParaExibicao (carregar r)).cpf = some (mascararCpfBruto c))) ∧
    (∀ filtro skip limit vs, adminGetSubmissions bd filtro skip limit = Leitura.ok vs →
      ∀ v ∈ vs, ∃ r ∈ bd.submissoes, v = toObject (carregar r)) ∧
    (∀ id v, adminGetSubmissionDetails bd id = Leitura.ok v →
      ∃ r ∈ bd.submissoes, v = toObject (carregar r)) ∧
    (∀ id status v, (adminUpdateSubmission bd id status).1 = Leitura.ok v →
      ∃ r ∈ bd.submissoes, v.cpf = r.cpf ∧ v.dadosCartao.numero = none ∧
        v.dadosCartao.cvv = none) ∧
    (∀ r : FormSubmission, (toObject (carregar r)).cpf = r.cpf ∧
      (toObject (carregar r)).dadosCartao.numero = none ∧
      (toObject (carregar r)).dadosCartao.cvv = none) ∧
    (∀ (colecao : List RegistroLegado) (x : RegistroLegado),
      x ∈ getSubmissions colecao ↔ x ∈ colecao) := by
  refine ⟨?_, ?_, ?_, sanitizar_carregado, ?_, ?_, ?_, toObject_carregado, ?_⟩
  · intro id v h
    unfold getSubmissionById at h
    cases hf : findById bd id with
    | none => rw [hf] at h; cases h
    | some x =>
      rw [hf] at h
      obtain ⟨r, hr, rfl⟩ := findById_mem bd id x hf
      injection h with h
      exact ⟨r, hr, h.symm⟩
  · intro cpf vs h v hv
    unfold getSubmissionsByCPF at h
    simp only at h
    split_ifs at h
    injection h with h
    rw [← h] at hv
    obtain ⟨x, hx, rfl⟩ := List.mem_map.mp hv
    obtain ⟨r, hr, rfl⟩ := find_mem bd _ _ _ x hx
    exact ⟨r, hr, rfl⟩
  · intro status skip limit vs h v hv
    unfold listSubmissions at h
    injection h with h
    rw [← h] at hv
    obtain ⟨x, hx, rfl⟩ := List.mem_map.mp hv
    obtain ⟨r, hr, rfl⟩ := find_mem bd _ _ _ x hx
    exact ⟨r, hr, rfl⟩
  · intro filtro skip limit vs h v hv
    unfold adminGetSubmissions at h
    injection h with h
    rw [← h] at hv
    obtain ⟨x, hx, rfl⟩ := List.mem_map.mp hv
    obtain ⟨r, hr, rfl⟩ := find_mem bd _ _ _ x hx
    exact ⟨r, hr, rfl⟩
  · intro id v h
    unfold adminGetSubmissionDetails at h
    cases hf : findById bd id with
    | none => rw [hf] at h; cases h
    | some x =>
      rw [hf] at h
      obtain ⟨r, hr, rfl⟩ := findById_mem bd id x hf
      injection h with h
      exact ⟨r, hr, h.symm⟩
  · intro id status v h
    unfold adminUpdateSubmission at h
    cases hr : bd.submissoes[id]? with
    | none => rw [hr] at h; cases h
    | some r =>
      rw [hr] at h
      simp only at h
      injection h with h
      refine ⟨r, List.getElem?_mem hr, ?_⟩
      rw [← h]
      rcases opcao_casos status with hs | hs | ⟨s, hs, hs'⟩ <;> subst hs <;>
        simp [toObject, carregar, *]
  · intro colecao x
    unfold getSubmissions
    exact List.mem_reverse

/-- C22 (counterexample): for the stored sample record, whose CPF is
"52998224725", `getSubmissionById` shows "529*****25" but the admin handler
`getSubmissionDetails` shows the CPF in full; and `GET /api/submissions`
returns a document stored by `POST /api/submissions` with its CPF, card number
and CVV in full. -/
theorem admin_e_rota_legada_sem_mascara :
    getSubmissionById bancoExemplo 0 =
      Leitura.ok (sanitizarParaExibicao (carregar (persistido (preSave (registroExemplo
        (some "52998224725") (some "4532015112830366") (some "123") (some "1990-01-31")
        (some "Maria Silva")))))) ∧
    (sanitizarParaExibicao (carregar (persistido (preSave (registroExemplo
        (some "52998224725") (some "4532015112830366") (some "123") (some "1990-01-31")
        (some "Maria Silva")))))).cpf = some "529*****25" ∧
    adminGetSubmissionDetails bancoExemplo 0 =
      Leitura.ok (toObject (carregar (persistido (preSave (registroExemplo
        (some "52998224725") (some "4532015112830366") (some "123") (some "1990-01-31")
        (some "Maria Silva")))))) ∧
    (toObject (carregar (persistido (preSave (registroExemplo
        (some "52998224725") (some "4532015112830366") (some "123") (some "1990-01-31")
        (some "Maria Silva")))))).cpf = some "52998224725" ∧
    (getSubmissions (postSubmissions []
        { cpf := some "52998224725", cardNumber := some "4532015112830366"
          cardCvv := some "123", outros := [] } 0).2).map
        (fun x => (x.corpo.cpf, x.corpo.cardNumber, x.corpo.cardCvv))
      = [(some "52998224725", some "4532015112830366", some "123")] := by
  decide

end NubankSupport
